import Mathlib

/-!
# Face swap panel controller (`deepfake-face-swap.js`)

A shallow embedding of the three functions of
`portable/src/wunjo/static/deepfake/js/deepfake-face-swap.js` that carry state:

* `handleCheckboxFaceSwapClick` (lines 2-9), the mutual exclusion of the two check boxes;
* `handleFaceSwap` (lines 84-114), loading a file into a slot;
* `processFaceSwap` (lines 126-209), validation and submission.

The DOM is explicit state (`Panel`, `SlotDom`), calls that leave the file are recorded in an
effect trace, the `displayStatus` calls that `processFaceSwap` does not await stay pending
until `settle` resumes them, and the functions the file calls but does not define
(`retrieveMediaDetails`, `retrieveSelectedFaceData`, `translateWithGoogle`, `getRandomColor`,
`setupImageCanvas`, `setupVideoTimeline`, the click listeners of the canvas) are fields of
`Collab`, so every theorem holds for all of their implementations.
-/

namespace FaceSwap

/-! ## JavaScript values -/

/-- JavaScript values as far as the controller inspects them.  Numbers are the integers and
`nan`; every object or array, empty or not, is an `object` (a reference, always truthy). -/
inductive JSVal where
  | undefined
  | null
  | bool (b : Bool)
  | num (n : Int)
  | nan
  | str (s : String)
  | object (ref : Nat)
  deriving DecidableEq, Repr

/-- JavaScript `ToBoolean`: what `!v` negates. -/
def JSVal.truthy : JSVal → Bool
  | .undefined => false
  | .null => false
  | .bool b => b
  | .num n => n != 0
  | .nan => false
  | .str s => s != ""
  | .object _ => true

/-- JavaScript `a !== b`: strict inequality (`NaN` differs from everything, itself included). -/
def JSVal.strictNe : JSVal → JSVal → Bool
  | .nan, _ => true
  | _, .nan => true
  | a, b => a != b

/-! ## The DOM of the panel -/

/-- The two media slots of the panel. -/
inductive Slot where
  | target
  | source
  deriving DecidableEq, Repr

/-- An element inside a preview container. -/
structure Node where
  tag : String
  classList : List String
  src : String
  deriving DecidableEq, Repr

/-- The descendants of a preview container (`#preview-media-target`, `#preview-media-source`),
in document order.  `innerHTML = ""` makes it `[]`. -/
abbrev Preview := List Node

/-- `previewElement.querySelector(".canvasMedia")`: the first descendant of that class, or
`none` for `null`. -/
def querySelectorCanvasMedia (pv : Preview) : Option Node :=
  pv.find? (fun n => decide ("canvasMedia" ∈ n.classList))

/-- What a status paragraph holds: the markup last assigned to `innerHTML`, or the plain text
last assigned to `innerText` (shown literally, not parsed as markup). -/
inductive Content where
  | html (markup : String)
  | text (t : String)
  deriving DecidableEq, Repr

/-- The tracked properties of a status paragraph (`#message-about-status-*`): its content,
`style.display` and `style.background`. -/
structure StatusElem where
  content : Content
  display : String
  background : String
  deriving DecidableEq, Repr

/-- The panel built by `initiateFaceSwapPop`: two check boxes, the coefficient input and, per
slot, a status paragraph and a preview container. -/
structure Panel where
  multiface : Bool
  similarface : Bool
  similarCoeff : String
  messageTarget : StatusElem
  messageSource : StatusElem
  previewTarget : Preview
  previewSource : Preview
  deriving DecidableEq, Repr

/-- Assignment to the status paragraph of a slot. -/
def Panel.setMessage (p : Panel) (slot : Slot) (e : StatusElem) : Panel :=
  match slot with
  | .target => { p with messageTarget := e }
  | .source => { p with messageSource := e }

/-- The preview container of a slot. -/
def Panel.preview (p : Panel) : Slot → Preview
  | .target => p.previewTarget
  | .source => p.previewSource

/-- The panel as `initiateFaceSwapPop` renders it (lines 24, 28, 35, 46-48, 55-57): both boxes
unchecked, coefficient `1.2`, status paragraphs hidden and empty, previews empty. -/
def initialPanel : Panel :=
  { multiface := false
    similarface := false
    similarCoeff := "1.2"
    messageTarget := { content := Content.html "", display := "none", background := "" }
    messageSource := { content := Content.html "", display := "none", background := "" }
    previewTarget := []
    previewSource := [] }

/-! ## Values exchanged with the collaborators -/

/-- The object `retrieveMediaDetails` returns, with the five properties the controller reads. -/
structure MediaDetails where
  mediaName : JSVal
  mediaStart : JSVal
  mediaEnd : JSVal
  mediaCurrentTime : JSVal
  mediaType : JSVal
  deriving DecidableEq, Repr

/-- The dictionary passed to `new MouseEvent("click", ...)` (lines 162-170), `view` apart. -/
structure MouseEventInit where
  bubbles : Bool
  cancelable : Bool
  clientX : Int
  clientY : Int
  offsetX : Int
  offsetY : Int
  deriving DecidableEq, Repr

/-- The object `faceSwapParameters` (lines 185-199), the argument of `JSON.stringify`. -/
structure FaceSwapParameters where
  face_target_fields : JSVal
  target_content : JSVal
  video_start_target : JSVal
  video_end_target : JSVal
  type_file_target : JSVal
  face_source_fields : JSVal
  source_content : JSVal
  video_current_time_source : JSVal
  video_end_source : JSVal
  type_file_source : JSVal
  multiface : Bool
  similarface : Bool
  similar_coeff : String
  deriving DecidableEq, Repr

/-- The JSON object of the status response; `status_code` is `undefined` when the key is
absent. -/
structure StatusResponse where
  status_code : JSVal
  deriving DecidableEq, Repr

/-- A file of a file input: its name and MIME type. -/
structure File where
  name : String
  type : String
  deriving DecidableEq, Repr

/-- Calls that leave the file, in the order they are made. -/
inductive Effect where
  | displayStatus (slot : Slot) (message : String)
  | retrieveMediaDetails (slot : Slot) (result : MediaDetails)
  | dispatchEvent (slot : Slot) (canvas : Node) (type : String) (init : MouseEventInit)
  | retrieveSelectedFaceData (slot : Slot) (result : JSVal)
  | fetch (url : String) (method : String) (contentType : String) (body : FaceSwapParameters)
  | closeTutorial
  | addEventListener (canvas : Node) (type : String) (listener : String)
  deriving DecidableEq, Repr

/-- The functions and globals the file uses and does not define. -/
structure Collab where
  targetLang : String
  translateWithGoogle : String → String → String → String
  getRandomColor : Nat → String
  retrieveMediaDetails : Preview → MediaDetails
  retrieveSelectedFaceData : Preview → JSVal
  clickListeners : Preview → Node → MouseEventInit → Preview
  createObjectURL : File → String
  setupImageCanvas : Preview → String → String → String → Preview × Node
  setupVideoTimeline : Preview → String → String → String → Preview × Node

/-! ## `handleCheckboxFaceSwapClick` -/

/-- The assignment `document.getElementById(id).checked = v` for the two boxes of the panel. -/
def setChecked (id : String) (v : Bool) (p : Panel) : Panel :=
  if id = "multiface-deepfake" then { p with multiface := v }
  else if id = "similarface-deepfake" then { p with similarface := v }
  else p

/-- The property `document.getElementById(id).checked`. -/
def getChecked (id : String) (p : Panel) : Bool :=
  if id = "multiface-deepfake" then p.multiface
  else if id = "similarface-deepfake" then p.similarface
  else false

/-- Lines 2-9: every box of the list whose id is not the clicked one is unchecked. -/
def handleCheckboxFaceSwapClick (clickedId : String) (p : Panel) : Panel :=
  let checkboxes := ["multiface-deepfake", "similarface-deepfake"]
  checkboxes.foldl (fun q id => if id ≠ clickedId then setChecked id false q else q) p

/-- A user click on a check box (lines 24 and 28): the browser toggles the box, then its
`onclick` attribute runs `handleCheckboxFaceSwapClick` with the id of the box. -/
def clickCheckbox (id : String) (p : Panel) : Panel :=
  handleCheckboxFaceSwapClick id (setChecked id (!getChecked id p) p)

/-- The two check boxes of the settings field set. -/
inductive Box where
  | multiface
  | similarface
  deriving DecidableEq, Repr

/-- The `id` attribute of a check box. -/
def Box.id : Box → String
  | .multiface => "multiface-deepfake"
  | .similarface => "similarface-deepfake"

/-- The other check box. -/
def Box.other : Box → Box
  | .multiface => .similarface
  | .similarface => .multiface

/-- A sequence of user clicks, first click first. -/
def runClicks (clicks : List Box) (p : Panel) : Panel :=
  clicks.foldl (fun q b => clickCheckbox b.id q) p

/-! ## `handleFaceSwap` -/

/-- The DOM of one slot as `handleFaceSwap` receives it: `parentElement` (the drop box, of
which the height is tracked), `messageElement` and `previewElement`. -/
structure SlotDom where
  dragBoxHeight : String
  message : StatusElem
  preview : Preview
  deriving DecidableEq, Repr

/-- What a call of `handleFaceSwap` leaves behind: the DOM of the slot, the calls made, the
number of colours drawn, and the exception that rejected the call, if one did. -/
structure LoadOutcome where
  dom : SlotDom
  trace : List Effect
  colorCalls : Nat
  thrown : Option String
  deriving DecidableEq, Repr

/-- The expression `file.type.split('/')[0]`: the text before the first slash. -/
def majorType (type : String) : String :=
  String.mk (type.toList.takeWhile (fun ch => ch != '/'))

/-- The markup appended to the "choose a face" message (lines 100 and 110). -/
def drawPolygonIcon : String :=
  " <i class=\"fa-solid fa-draw-polygon\" style=\"margin-left: 10px;\"></i>"

/-- Lines 84-114.  `file` is `fileInput.files[0]` (`none` for `undefined`), `k` the number of
colours drawn so far.  The local `canvas` stays `none` (`undefined`) unless a branch assigns
it; `canvas.addEventListener` on `undefined` throws a `TypeError`. -/
def handleFaceSwap (c : Collab) (file : Option File) (s : SlotDom) (k : Nat) : LoadOutcome :=
  match file with
  | none => { dom := s, trace := [], colorCalls := k, thrown := none }
  | some file =>
    let fileUrl := c.createObjectURL file
    let fileType := majorType file.type
    let s1 : SlotDom := { s with dragBoxHeight := "30px" }
    let s2 : SlotDom := { s1 with preview := [] }
    let r : SlotDom × Nat × Option Node :=
      if fileType = "image" then
        let m1 : StatusElem :=
          { s2.message with display := "flex", background := c.getRandomColor k }
        let messageAboutStatusText :=
          c.translateWithGoogle "Choose a face to animate by tool" "auto" c.targetLang
        let m2 : StatusElem :=
          { m1 with content := Content.html (messageAboutStatusText ++ drawPolygonIcon) }
        let built := c.setupImageCanvas s2.preview fileUrl "40vh" "35vw"
        ({ s2 with message := m2, preview := built.1 }, k + 1, some built.2)
      else if fileType = "video" then
        let m1 : StatusElem :=
          { s2.message with display := "flex", background := c.getRandomColor k }
        let loadingText := c.translateWithGoogle "Video is loading..." "auto" c.targetLang
        let m2 : StatusElem := { m1 with content := Content.html loadingText }
        let built := c.setupVideoTimeline s2.preview fileUrl "40vh" "35vw"
        let m3 : StatusElem := { m2 with background := c.getRandomColor (k + 1) }
        let messageAboutStatusText :=
          c.translateWithGoogle "Choose a face to animate by tool" "auto" c.targetLang
        let m4 : StatusElem :=
          { m3 with content := Content.html (messageAboutStatusText ++ drawPolygonIcon) }
        ({ s2 with message := m4, preview := built.1 }, k + 2, some built.2)
      else (s2, k, none)
    match r.2.2 with
    | some canvas =>
      { dom := r.1
        trace := [Effect.addEventListener canvas "click" "setPointOnCanvas"]
        colorCalls := r.2.1
        thrown := none }
    | none => { dom := r.1, trace := [], colorCalls := r.2.1, thrown := some "TypeError" }

/-! ## `processFaceSwap` -/

/-- The state when a call of `processFaceSwap` returns: the panel, the calls made in order,
the `displayStatus` calls still waiting for their translation (none of them is awaited), the
number of colours drawn, and the exception that rejected the call, if one did. -/
structure Outcome where
  panel : Panel
  trace : List Effect
  pending : List (Slot × String)
  colorCalls : Nat
  thrown : Option String
  deriving DecidableEq, Repr

/-- Recording calls at the end of the trace. -/
def Outcome.log (o : Outcome) (es : List Effect) : Outcome :=
  { o with trace := o.trace ++ es }

/-- The body of the `forEach` of lines 136-139: `innerHTML = ""` and `display = "none"`. -/
def clearStatus (e : StatusElem) : StatusElem :=
  { e with content := Content.html "", display := "none" }

/-- Lines 134-139: both status paragraphs are emptied and hidden; nothing has been called. -/
def clearMessages (element : Panel) : Outcome :=
  { panel := { element with
      messageSource := clearStatus element.messageSource
      messageTarget := clearStatus element.messageTarget }
    trace := []
    pending := []
    colorCalls := 0
    thrown := none }

/-- Line 128 up to the `await`, for the nested `displayStatus(elem, message)` called without
`await`; `slot` names `elem`.  The translation is requested and the rest of the body waits
for it. -/
def displayStatus (_c : Collab) (slot : Slot) (message : String) (o : Outcome) : Outcome :=
  { o with
    trace := o.trace ++ [Effect.displayStatus slot message]
    pending := o.pending ++ [(slot, message)] }

/-- Lines 128-131 after the `await`, for one waiting `displayStatus(elem, message)`: the
translated message is assigned to `innerText`, the element is displayed and takes the next
colour drawn. -/
def resumeDisplayStatus (c : Collab) (o : Outcome) (waiting : Slot × String) : Outcome :=
  let translatedMessage := c.translateWithGoogle waiting.2 "auto" c.targetLang
  { o with
    panel := o.panel.setMessage waiting.1
      { content := Content.text translatedMessage
        display := "flex"
        background := c.getRandomColor o.colorCalls }
    colorCalls := o.colorCalls + 1 }

/-- The state once the waiting `displayStatus` calls have resumed.  The translations resolve
in call order or, with `lastFirst`, in the opposite order (at most two calls wait). -/
def settle (c : Collab) (lastFirst : Bool) (o : Outcome) : Outcome :=
  let order := if lastFirst then o.pending.reverse else o.pending
  { order.foldl (resumeDisplayStatus c) o with pending := [] }

/-- The status paragraph shows the text `t`: `t` is its text and it is displayed. -/
def StatusElem.shows (e : StatusElem) (t : String) : Prop :=
  e.content = Content.text t ∧ e.display = "flex"

/-- The status paragraph is empty and hidden. -/
def StatusElem.cleared (e : StatusElem) : Prop :=
  e.content = Content.html "" ∧ e.display = "none"

/-- The click event of lines 162-170. -/
def clickEvent : MouseEventInit :=
  { bubbles := true, cancelable := true, clientX := 0, clientY := 0, offsetX := 0, offsetY := 0 }

/-- Lines 159-174: with the multiface box checked, one click is dispatched on the
`.canvasMedia` element of the target preview and its listeners run.  The result is the target
preview afterwards and the calls made; `none` is the `TypeError` of `dispatchEvent` on
`null`. -/
def resolveMultiface (c : Collab) (multiFaceChecked : Bool) (targetPreviewElement : Preview) :
    Option (Preview × List Effect) :=
  if multiFaceChecked then
    match querySelectorCanvasMedia targetPreviewElement with
    | none => none
    | some canvasTargetElement =>
      some (c.clickListeners targetPreviewElement canvasTargetElement clickEvent,
            [Effect.dispatchEvent Slot.target canvasTargetElement "click" clickEvent])
  else some (targetPreviewElement, [])

/-- The message of line 142. -/
def busyTargetMessage : String := "The process is busy"

/-- The message of line 143. -/
def busySourceMessage : String := "Wait for the previous process to finish"

/-- The message of line 151. -/
def loadTargetMessage : String :=
  "You haven't loaded the target media. Click on the select upload window."

/-- The message of line 152. -/
def loadSourceMessage : String :=
  "You haven't loaded the source media. Click on the select source window."

/-- The message of line 180. -/
def faceTargetMessage : String := "Ensure face selection is set on target media"

/-- The message of line 181. -/
def faceSourceMessage : String := "Ensure face selection is set on source media"

/-- Lines 185-199: the object `faceSwapParameters`. -/
def faceSwapParameters (targetDetails sourceDetails : MediaDetails)
    (targetFaceData sourceFaceData : JSVal) (multiFaceChecked : Bool) (element : Panel) :
    FaceSwapParameters :=
  { face_target_fields := targetFaceData
    target_content := targetDetails.mediaName
    video_start_target := targetDetails.mediaStart
    video_end_target := targetDetails.mediaEnd
    type_file_target := targetDetails.mediaType
    face_source_fields := sourceFaceData
    source_content := sourceDetails.mediaName
    video_current_time_source := sourceDetails.mediaCurrentTime
    video_end_source := sourceDetails.mediaEnd
    type_file_source := sourceDetails.mediaType
    multiface := multiFaceChecked
    similarface := element.similarface
    similar_coeff := element.similarCoeff }

/-- Lines 126-209.  `element` is the panel the status paragraphs, previews, check boxes and
coefficient input are looked up in. -/
def processFaceSwap (c : Collab) (data : StatusResponse) (element : Panel) : Outcome :=
  let o0 := clearMessages element
  if data.status_code.strictNe (JSVal.num 200) then
    displayStatus c Slot.source busySourceMessage (displayStatus c Slot.target busyTargetMessage o0)
  else
    let targetDetails := c.retrieveMediaDetails o0.panel.previewTarget
    let sourceDetails := c.retrieveMediaDetails o0.panel.previewSource
    let o1 := o0.log [Effect.retrieveMediaDetails Slot.target targetDetails,
                      Effect.retrieveMediaDetails Slot.source sourceDetails]
    if !targetDetails.mediaName.truthy || !sourceDetails.mediaName.truthy then
      let o2 := if !targetDetails.mediaName.truthy
        then displayStatus c Slot.target loadTargetMessage o1 else o1
      if !sourceDetails.mediaName.truthy
        then displayStatus c Slot.source loadSourceMessage o2 else o2
    else
      let targetPreviewElement := o1.panel.previewTarget
      let multiFaceChecked := o1.panel.multiface
      match resolveMultiface c multiFaceChecked targetPreviewElement with
      | none => { o1 with thrown := some "TypeError" }
      | some (clickedPreview, clicks) =>
        let o2 : Outcome :=
          { o1 with panel := { o1.panel with previewTarget := clickedPreview } }.log clicks
        let targetFaceData := c.retrieveSelectedFaceData o2.panel.previewTarget
        let sourceFaceData := c.retrieveSelectedFaceData o2.panel.previewSource
        let o3 := o2.log [Effect.retrieveSelectedFaceData Slot.target targetFaceData,
                          Effect.retrieveSelectedFaceData Slot.source sourceFaceData]
        if !targetFaceData.truthy || !sourceFaceData.truthy then
          let o4 := if !targetFaceData.truthy
            then displayStatus c Slot.target faceTargetMessage o3 else o3
          if !sourceFaceData.truthy
            then displayStatus c Slot.source faceSourceMessage o4 else o4
        else
          o3.log
            [Effect.fetch "/synthesize_face_swap/" "POST" "application/json"
               (faceSwapParameters targetDetails sourceDetails targetFaceData sourceFaceData
                  multiFaceChecked o3.panel),
             Effect.closeTutorial]

/-- A POST to `/synthesize_face_swap/` is among the calls made. -/
def Outcome.posted (o : Outcome) : Prop :=
  ∃ contentType body, Effect.fetch "/synthesize_face_swap/" "POST" contentType body ∈ o.trace

/-- Some `fetch` call, to whatever address, is among the calls made. -/
def Outcome.fetched (o : Outcome) : Prop :=
  ∃ url method contentType body, Effect.fetch url method contentType body ∈ o.trace

/-- The call of `closeTutorial` is among the calls made: the panel was closed. -/
def Outcome.closed (o : Outcome) : Prop :=
  Effect.closeTutorial ∈ o.trace

/-- The state after line 148: messages cleared, the media details of both slots read. -/
def detailsRead (c : Collab) (p : Panel) : Outcome :=
  (clearMessages p).log
    [Effect.retrieveMediaDetails Slot.target (c.retrieveMediaDetails p.previewTarget),
     Effect.retrieveMediaDetails Slot.source (c.retrieveMediaDetails p.previewSource)]

/-- The state after line 177: the click step has left the target preview `clickedPreview`
and made the calls `clicks`, and the face data of both slots have been read. -/
def faceDataRead (c : Collab) (p : Panel) (clickedPreview : Preview) (clicks : List Effect) :
    Outcome :=
  ({ detailsRead c p with
      panel := { (detailsRead c p).panel with previewTarget := clickedPreview } }.log clicks).log
    [Effect.retrieveSelectedFaceData Slot.target (c.retrieveSelectedFaceData clickedPreview),
     Effect.retrieveSelectedFaceData Slot.source (c.retrieveSelectedFaceData p.previewSource)]

/-- A `fetch` or the `closeTutorial` call. -/
def Effect.isSubmission : Effect → Bool
  | .fetch _ _ _ _ => true
  | .closeTutorial => true
  | _ => false

/-- A `dispatchEvent` call. -/
def Effect.isDispatch : Effect → Bool
  | .dispatchEvent _ _ _ _ => true
  | _ => false

/-! ## The range of the coefficient -/

/-- The number a run of decimal digits denotes; `none` when a character is no digit. -/
def digitsValue (cs : List Char) : Option Nat :=
  cs.foldl
    (fun acc ch => acc.bind fun n => if ch.isDigit then some (10 * n + (ch.toNat - 48)) else none)
    (some 0)

/-- The value of a plain decimal numeral (`digits` or `digits.digits`) as numerator and
denominator; `none` for any other string. -/
def decimalValue (s : String) : Option (Nat × Nat) :=
  let cs := s.toList
  let whole := cs.takeWhile (fun ch => ch != '.')
  let frac := (cs.dropWhile (fun ch => ch != '.')).drop 1
  if whole = [] then none
  else
    match digitsValue whole, digitsValue frac with
    | some a, some b => some (a * 10 ^ frac.length + b, 10 ^ frac.length)
    | _, _ => none

/-- The bound of the specification on the similarity coefficient (`min="0.1"`, `max="3"` on
line 35): the string is a plain decimal numeral of a number between 0.1 and 3.0 inclusive. -/
def coeffInRange (s : String) : Bool :=
  match decimalValue s with
  | some (m, d) => decide (d ≤ 10 * m ∧ m ≤ 3 * d)
  | none => false

/-! ## Sample collaborators and panels -/

/-- The image element a loader puts in a preview. -/
def imageNode (url : String) : Node :=
  { tag := "img", classList := ["imageMedia"], src := url }

/-- The canvas a loader puts in a preview. -/
def canvasNode : Node :=
  { tag := "canvas", classList := ["canvasMedia"], src := "" }

/-- The marker a click listener puts in a preview. -/
def pointNode : Node :=
  { tag := "div", classList := ["pointMedia"], src := "" }

/-- A sample implementation of the collaborators for concrete runs: the identity
translation, one colour, media details read off the image element, face data present once
a point marker is, a click listener that adds a point marker, and loaders that append an
image (or video) element and a canvas. -/
def sampleCollab : Collab :=
  { targetLang := "en"
    translateWithGoogle := fun text _ _ => text
    getRandomColor := fun _ => "#f7db4d"
    retrieveMediaDetails := fun pv =>
      match pv.find? (fun n => decide ("imageMedia" ∈ n.classList)) with
      | some img =>
        { mediaName := JSVal.str img.src, mediaStart := JSVal.num 0, mediaEnd := JSVal.num 0
          mediaCurrentTime := JSVal.num 0, mediaType := JSVal.str "img" }
      | none =>
        { mediaName := JSVal.str "", mediaStart := JSVal.num 0, mediaEnd := JSVal.num 0
          mediaCurrentTime := JSVal.num 0, mediaType := JSVal.str "" }
    retrieveSelectedFaceData := fun pv =>
      if pv.any (fun n => decide ("pointMedia" ∈ n.classList)) then JSVal.object 1
      else JSVal.null
    clickListeners := fun pv _ _ => pv ++ [pointNode]
    createObjectURL := fun file => file.name
    setupImageCanvas := fun pv url _ _ => (pv ++ [imageNode url, canvasNode], canvasNode)
    setupVideoTimeline := fun pv url _ _ =>
      (pv ++ [{ tag := "video", classList := ["videoMedia"], src := url }, canvasNode],
       canvasNode) }

/-- A status response of an idle backend. -/
def idleResponse : StatusResponse := { status_code := JSVal.num 200 }

/-- A status response of a busy backend. -/
def busyResponse : StatusResponse := { status_code := JSVal.num 300 }

/-- A panel with both media loaded and a face picked on each, the similarface box checked
and the coefficient left at `1.2`. -/
def readyPanel : Panel :=
  { initialPanel with
    similarface := true
    previewTarget := [imageNode "target.png", canvasNode, pointNode]
    previewSource := [imageNode "src.png", canvasNode, pointNode] }

/-- The request body expected for the ready panel. -/
def readyParameters : FaceSwapParameters :=
  { face_target_fields := JSVal.object 1
    target_content := JSVal.str "target.png"
    video_start_target := JSVal.num 0
    video_end_target := JSVal.num 0
    type_file_target := JSVal.str "img"
    face_source_fields := JSVal.object 1
    source_content := JSVal.str "src.png"
    video_current_time_source := JSVal.num 0
    video_end_source := JSVal.num 0
    type_file_source := JSVal.str "img"
    multiface := false
    similarface := true
    similar_coeff := "1.2" }

/-- A panel with the target slot empty and the source slot holding `src.png` with a face
picked. -/
def sourceOnlyPanel : Panel :=
  { initialPanel with previewSource := [imageNode "src.png", canvasNode, pointNode] }

/-- A panel with both media loaded, no face picked on the target, and the multiface box
checked. -/
def multifacePanel : Panel :=
  { initialPanel with
    multiface := true
    previewTarget := [imageNode "target.png", canvasNode]
    previewSource := [imageNode "src.png", canvasNode, pointNode] }

/-- A panel with both media loaded and no face picked on either. -/
def unpickedPanel : Panel :=
  { initialPanel with
    previewTarget := [imageNode "target.png", canvasNode]
    previewSource := [imageNode "src.png", canvasNode] }

/-- A panel with both media names present, the multiface box checked, and a target preview
that holds its image but no canvas and no face marker. -/
def noCanvasPanel : Panel :=
  { initialPanel with
    multiface := true
    previewTarget := [imageNode "target.png"]
    previewSource := [imageNode "src.png", canvasNode, pointNode] }

/-- A panel with both media names and both face data present, the multiface box checked, and
a target preview without canvas. -/
def noCanvasPickedPanel : Panel :=
  { initialPanel with
    multiface := true
    previewTarget := [imageNode "target.png", pointNode]
    previewSource := [imageNode "src.png", canvasNode, pointNode] }

/-- The ready panel after the user typed `5` into the coefficient input. -/
def outOfRangePanel : Panel :=
  { readyPanel with similarCoeff := "5" }

/-- The DOM of a slot that holds an earlier image with a face picked. -/
def usedSlot : SlotDom :=
  { dragBoxHeight := "30px"
    message := { content := Content.html "Choose a face to animate by tool", display := "flex",
                 background := "#f7db4d" }
    preview := [imageNode "old.png", canvasNode, pointNode] }

/-- A file that is neither an image nor a video. -/
def pdfFile : File := { name := "notes.pdf", type := "application/pdf" }

/-- An image file. -/
def pngFile : File := { name := "face.png", type := "image/png" }

/-! # Theorems -/

/-! ## The check boxes -/

/-- One click on the multiface box: it is toggled and the similarface box unchecked. -/
theorem clickCheckbox_multiface (p : Panel) :
    clickCheckbox Box.multiface.id p =
      { p with multiface := !p.multiface, similarface := false } := by
  simp [clickCheckbox, handleCheckboxFaceSwapClick, setChecked, getChecked, Box.id]

/-- One click on the similarface box: it is toggled and the multiface box unchecked. -/
theorem clickCheckbox_similarface (p : Panel) :
    clickCheckbox Box.similarface.id p =
      { p with similarface := !p.similarface, multiface := false } := by
  simp [clickCheckbox, handleCheckboxFaceSwapClick, setChecked, getChecked, Box.id]

/-- After one click, from whatever state, the two boxes are not both checked. -/
theorem clickCheckbox_exclusive (b : Box) (p : Panel) :
    ¬ ((clickCheckbox b.id p).multiface = true ∧ (clickCheckbox b.id p).similarface = true) := by
  cases b
  · rw [clickCheckbox_multiface]; simp
  · rw [clickCheckbox_similarface]; simp

/-- A sequence of clicks that ends with the click `b`. -/
theorem runClicks_append_singleton (clicks : List Box) (b : Box) (p : Panel) :
    runClicks (clicks ++ [b]) p = clickCheckbox b.id (runClicks clicks p) := by
  simp [runClicks, List.foldl_append]

/-- The two boxes are not both checked after any sequence of clicks from a state in which
they are not both checked. -/
theorem runClicks_exclusive (clicks : List Box) (p : Panel)
    (h : ¬ (p.multiface = true ∧ p.similarface = true)) :
    ¬ ((runClicks clicks p).multiface = true ∧ (runClicks clicks p).similarface = true) := by
  induction clicks using List.reverseRecOn with
  | nil => simpa [runClicks] using h
  | append_singleton cs b _ =>
    rw [runClicks_append_singleton]
    exact clickCheckbox_exclusive b _

/-- C3: starting from both boxes unchecked, after every finite sequence of clicks on the two
check boxes the boxes are not both checked, and whenever the next click leaves the clicked box
checked, the other box is unchecked. -/
theorem checkbox_mutual_exclusion (clicks : List Box) :
    ¬ ((runClicks clicks initialPanel).multiface = true ∧
        (runClicks clicks initialPanel).similarface = true) ∧
    ∀ b : Box,
      getChecked b.id (clickCheckbox b.id (runClicks clicks initialPanel)) = true →
      getChecked b.other.id (clickCheckbox b.id (runClicks clicks initialPanel)) = false := by
  refine ⟨runClicks_exclusive clicks initialPanel (by simp [initialPanel]), ?_⟩
  intro b
  cases b
  · rw [clickCheckbox_multiface]; simp [getChecked, Box.id, Box.other]
  · rw [clickCheckbox_similarface]; simp [getChecked, Box.id, Box.other]

/-- A run of C3: multiface, then similarface, then similarface again, then multiface. -/
theorem checkbox_mutual_exclusion_witness :
    (runClicks [Box.multiface] initialPanel).multiface = true ∧
    (runClicks [Box.multiface] initialPanel).similarface = false ∧
    (runClicks [Box.multiface, Box.similarface] initialPanel).multiface = false ∧
    (runClicks [Box.multiface, Box.similarface] initialPanel).similarface = true ∧
    ¬ ((runClicks [Box.multiface, Box.similarface, Box.similarface, Box.multiface]
          initialPanel).multiface = true ∧
       (runClicks [Box.multiface, Box.similarface, Box.similarface, Box.multiface]
          initialPanel).similarface = true) :=
  ⟨by decide, by decide, by decide, by decide,
   (checkbox_mutual_exclusion
      [Box.multiface, Box.similarface, Box.similarface, Box.multiface]).1⟩


/-! ## `processFaceSwap`: the paths -/

/-- The test of line 141 fails exactly for the number 200. -/
theorem strictNe_200 (v : JSVal) : v.strictNe (JSVal.num 200) = false ↔ v = JSVal.num 200 := by
  cases v <;> simp [JSVal.strictNe]

/-- The test of line 141 succeeds for everything that is not the number 200. -/
theorem strictNe_200_of_ne (v : JSVal) (h : v ≠ JSVal.num 200) :
    v.strictNe (JSVal.num 200) = true := by
  cases hv : v.strictNe (JSVal.num 200)
  · exact absurd ((strictNe_200 v).1 hv) h
  · rfl

/-- Busy path (lines 141-145). -/
theorem processFaceSwap_busy (c : Collab) (data : StatusResponse) (p : Panel)
    (h : data.status_code ≠ JSVal.num 200) :
    processFaceSwap c data p =
      displayStatus c Slot.source busySourceMessage
        (displayStatus c Slot.target busyTargetMessage (clearMessages p)) := by
  simp [processFaceSwap, strictNe_200_of_ne _ h]

/-- Missing media path (lines 150-154). -/
theorem processFaceSwap_missingMedia (c : Collab) (data : StatusResponse) (p : Panel)
    (h : data.status_code = JSVal.num 200)
    (hm : (c.retrieveMediaDetails p.previewTarget).mediaName.truthy = false ∨
          (c.retrieveMediaDetails p.previewSource).mediaName.truthy = false) :
    processFaceSwap c data p =
      (if (c.retrieveMediaDetails p.previewSource).mediaName.truthy = false then
        displayStatus c Slot.source loadSourceMessage else id)
      ((if (c.retrieveMediaDetails p.previewTarget).mediaName.truthy = false then
        displayStatus c Slot.target loadTargetMessage else id) (detailsRead c p)) := by
  have hs := (strictNe_200 data.status_code).2 h
  rcases hm with hm | hm <;>
  cases ht : (c.retrieveMediaDetails p.previewTarget).mediaName.truthy <;>
  cases hsrc : (c.retrieveMediaDetails p.previewSource).mediaName.truthy <;>
  simp_all [processFaceSwap, detailsRead, clearMessages]

/-- Missing canvas path (line 173): `dispatchEvent` on `null` throws. -/
theorem processFaceSwap_missingCanvas (c : Collab) (data : StatusResponse) (p : Panel)
    (h : data.status_code = JSVal.num 200)
    (ht : (c.retrieveMediaDetails p.previewTarget).mediaName.truthy = true)
    (hsrc : (c.retrieveMediaDetails p.previewSource).mediaName.truthy = true)
    (hr : resolveMultiface c p.multiface p.previewTarget = none) :
    processFaceSwap c data p = { detailsRead c p with thrown := some "TypeError" } := by
  have hs := (strictNe_200 data.status_code).2 h
  simp [processFaceSwap, detailsRead, clearMessages, Outcome.log, hs, ht, hsrc, hr]

/-- Missing face data path (lines 179-183). -/
theorem processFaceSwap_missingFace (c : Collab) (data : StatusResponse) (p : Panel)
    (clickedPreview : Preview) (clicks : List Effect)
    (h : data.status_code = JSVal.num 200)
    (ht : (c.retrieveMediaDetails p.previewTarget).mediaName.truthy = true)
    (hsrc : (c.retrieveMediaDetails p.previewSource).mediaName.truthy = true)
    (hr : resolveMultiface c p.multiface p.previewTarget = some (clickedPreview, clicks))
    (hf : (c.retrieveSelectedFaceData clickedPreview).truthy = false ∨
          (c.retrieveSelectedFaceData p.previewSource).truthy = false) :
    processFaceSwap c data p =
      (if (c.retrieveSelectedFaceData p.previewSource).truthy = false then
        displayStatus c Slot.source faceSourceMessage else id)
      ((if (c.retrieveSelectedFaceData clickedPreview).truthy = false then
        displayStatus c Slot.target faceTargetMessage else id)
        (faceDataRead c p clickedPreview clicks)) := by
  have hs := (strictNe_200 data.status_code).2 h
  rcases hf with hf | hf <;>
  cases htf : (c.retrieveSelectedFaceData clickedPreview).truthy <;>
  cases hsf : (c.retrieveSelectedFaceData p.previewSource).truthy <;>
  simp_all [processFaceSwap, faceDataRead, detailsRead, clearMessages, Outcome.log]

/-- Submission path (lines 185-208). -/
theorem processFaceSwap_submitted (c : Collab) (data : StatusResponse) (p : Panel)
    (clickedPreview : Preview) (clicks : List Effect)
    (h : data.status_code = JSVal.num 200)
    (ht : (c.retrieveMediaDetails p.previewTarget).mediaName.truthy = true)
    (hsrc : (c.retrieveMediaDetails p.previewSource).mediaName.truthy = true)
    (hr : resolveMultiface c p.multiface p.previewTarget = some (clickedPreview, clicks))
    (htf : (c.retrieveSelectedFaceData clickedPreview).truthy = true)
    (hsf : (c.retrieveSelectedFaceData p.previewSource).truthy = true) :
    processFaceSwap c data p =
      (faceDataRead c p clickedPreview clicks).log
        [Effect.fetch "/synthesize_face_swap/" "POST" "application/json"
           (faceSwapParameters (c.retrieveMediaDetails p.previewTarget)
              (c.retrieveMediaDetails p.previewSource)
              (c.retrieveSelectedFaceData clickedPreview)
              (c.retrieveSelectedFaceData p.previewSource) p.multiface p),
         Effect.closeTutorial] := by
  have hs := (strictNe_200 data.status_code).2 h
  simp [processFaceSwap, faceDataRead, detailsRead, clearMessages, Outcome.log, hs, ht, hsrc, hr,
    htf, hsf, faceSwapParameters]

/-! ## The calls made on each path -/

/-- The calls of `displayStatus`: one more, at the end. -/
theorem displayStatus_trace (c : Collab) (slot : Slot) (message : String) (o : Outcome) :
    (displayStatus c slot message o).trace = o.trace ++ [Effect.displayStatus slot message] := rfl

/-- A conditional `displayStatus` adds its call exactly when the condition holds. -/
theorem displayStatus_if_trace (c : Collab) (slot : Slot) (message : String) (o : Outcome)
    (b : Prop) [Decidable b] :
    ((if b then displayStatus c slot message else id) o).trace =
      o.trace ++ (if b then [Effect.displayStatus slot message] else []) := by
  split_ifs <;> simp [displayStatus_trace]

/-- The calls made up to line 148. -/
theorem detailsRead_trace (c : Collab) (p : Panel) :
    (detailsRead c p).trace =
      [Effect.retrieveMediaDetails Slot.target (c.retrieveMediaDetails p.previewTarget),
       Effect.retrieveMediaDetails Slot.source (c.retrieveMediaDetails p.previewSource)] := rfl

/-- The calls made up to line 177. -/
theorem faceDataRead_trace (c : Collab) (p : Panel) (clickedPreview : Preview)
    (clicks : List Effect) :
    (faceDataRead c p clickedPreview clicks).trace =
      [Effect.retrieveMediaDetails Slot.target (c.retrieveMediaDetails p.previewTarget),
       Effect.retrieveMediaDetails Slot.source (c.retrieveMediaDetails p.previewSource)] ++
      clicks ++
      [Effect.retrieveSelectedFaceData Slot.target (c.retrieveSelectedFaceData clickedPreview),
       Effect.retrieveSelectedFaceData Slot.source (c.retrieveSelectedFaceData p.previewSource)] := by
  simp [faceDataRead, detailsRead, clearMessages, Outcome.log]

/-- The click step fails exactly when the box is checked and the target preview has no
`.canvasMedia` element. -/
theorem resolveMultiface_eq_none (c : Collab) (m : Bool) (pv : Preview) :
    resolveMultiface c m pv = none ↔ m = true ∧ querySelectorCanvasMedia pv = none := by
  unfold resolveMultiface
  cases m <;> cases hq : querySelectorCanvasMedia pv <;> simp

/-- The click step that completes: nothing with the box unchecked, one click on the canvas
of the target preview with the box checked. -/
theorem resolveMultiface_eq_some (c : Collab) (m : Bool) (pv q : Preview) (es : List Effect)
    (h : resolveMultiface c m pv = some (q, es)) :
    (m = false ∧ q = pv ∧ es = []) ∨
    (∃ canvas, m = true ∧ querySelectorCanvasMedia pv = some canvas ∧
      q = c.clickListeners pv canvas clickEvent ∧
      es = [Effect.dispatchEvent Slot.target canvas "click" clickEvent]) := by
  unfold resolveMultiface at h
  cases m <;> cases hq : querySelectorCanvasMedia pv <;> simp_all

/-- A trace without submission calls: nothing fetched, nothing posted, panel not closed. -/
theorem not_submitted_of_trace (o : Outcome) (h : ∀ e ∈ o.trace, e.isSubmission = false) :
    ¬ o.posted ∧ ¬ o.fetched ∧ ¬ o.closed := by
  refine ⟨?_, ?_, ?_⟩
  · rintro ⟨ct, body, hmem⟩
    simpa [Effect.isSubmission] using h _ hmem
  · rintro ⟨url, method, ct, body, hmem⟩
    simpa [Effect.isSubmission] using h _ hmem
  · intro hmem
    simpa [Effect.isSubmission] using h _ hmem

/-- The calls of the click step are no submission calls. -/
theorem resolveMultiface_no_submission (c : Collab) (m : Bool) (pv q : Preview)
    (es : List Effect) (h : resolveMultiface c m pv = some (q, es)) :
    ∀ e ∈ es, e.isSubmission = false := by
  rcases resolveMultiface_eq_some c m pv q es h with ⟨_, _, rfl⟩ | ⟨cv, _, _, _, rfl⟩ <;>
    simp [Effect.isSubmission]

/-- The calls of the busy path. -/
theorem processFaceSwap_busy_trace (c : Collab) (data : StatusResponse) (p : Panel)
    (h : data.status_code ≠ JSVal.num 200) :
    (processFaceSwap c data p).trace =
      [Effect.displayStatus Slot.target busyTargetMessage,
       Effect.displayStatus Slot.source busySourceMessage] := by
  rw [processFaceSwap_busy c data p h]; rfl

/-- The calls of the missing media path. -/
theorem processFaceSwap_missingMedia_trace (c : Collab) (data : StatusResponse) (p : Panel)
    (h : data.status_code = JSVal.num 200)
    (hm : (c.retrieveMediaDetails p.previewTarget).mediaName.truthy = false ∨
          (c.retrieveMediaDetails p.previewSource).mediaName.truthy = false) :
    (processFaceSwap c data p).trace =
      [Effect.retrieveMediaDetails Slot.target (c.retrieveMediaDetails p.previewTarget),
       Effect.retrieveMediaDetails Slot.source (c.retrieveMediaDetails p.previewSource)] ++
      (if (c.retrieveMediaDetails p.previewTarget).mediaName.truthy = false then
        [Effect.displayStatus Slot.target loadTargetMessage] else []) ++
      (if (c.retrieveMediaDetails p.previewSource).mediaName.truthy = false then
        [Effect.displayStatus Slot.source loadSourceMessage] else []) := by
  rw [processFaceSwap_missingMedia c data p h hm, displayStatus_if_trace,
    displayStatus_if_trace, detailsRead_trace]

/-- The calls of the missing canvas path. -/
theorem processFaceSwap_missingCanvas_trace (c : Collab) (data : StatusResponse) (p : Panel)
    (h : data.status_code = JSVal.num 200)
    (ht : (c.retrieveMediaDetails p.previewTarget).mediaName.truthy = true)
    (hsrc : (c.retrieveMediaDetails p.previewSource).mediaName.truthy = true)
    (hr : resolveMultiface c p.multiface p.previewTarget = none) :
    (processFaceSwap c data p).trace =
      [Effect.retrieveMediaDetails Slot.target (c.retrieveMediaDetails p.previewTarget),
       Effect.retrieveMediaDetails Slot.source (c.retrieveMediaDetails p.previewSource)] := by
  rw [processFaceSwap_missingCanvas c data p h ht hsrc hr]; rfl

/-- The calls of the missing face data path. -/
theorem processFaceSwap_missingFace_trace (c : Collab) (data : StatusResponse) (p : Panel)
    (clickedPreview : Preview) (clicks : List Effect)
    (h : data.status_code = JSVal.num 200)
    (ht : (c.retrieveMediaDetails p.previewTarget).mediaName.truthy = true)
    (hsrc : (c.retrieveMediaDetails p.previewSource).mediaName.truthy = true)
    (hr : resolveMultiface c p.multiface p.previewTarget = some (clickedPreview, clicks))
    (hf : (c.retrieveSelectedFaceData clickedPreview).truthy = false ∨
          (c.retrieveSelectedFaceData p.previewSource).truthy = false) :
    (processFaceSwap c data p).trace =
      [Effect.retrieveMediaDetails Slot.target (c.retrieveMediaDetails p.previewTarget),
       Effect.retrieveMediaDetails Slot.source (c.retrieveMediaDetails p.previewSource)] ++
      clicks ++
      [Effect.retrieveSelectedFaceData Slot.target (c.retrieveSelectedFaceData clickedPreview),
       Effect.retrieveSelectedFaceData Slot.source
         (c.retrieveSelectedFaceData p.previewSource)] ++
      (if (c.retrieveSelectedFaceData clickedPreview).truthy = false then
        [Effect.displayStatus Slot.target faceTargetMessage] else []) ++
      (if (c.retrieveSelectedFaceData p.previewSource).truthy = false then
        [Effect.displayStatus Slot.source faceSourceMessage] else []) := by
  rw [processFaceSwap_missingFace c data p clickedPreview clicks h ht hsrc hr hf,
    displayStatus_if_trace, displayStatus_if_trace, faceDataRead_trace]

/-- The calls of the submission path. -/
theorem processFaceSwap_submitted_trace (c : Collab) (data : StatusResponse) (p : Panel)
    (clickedPreview : Preview) (clicks : List Effect)
    (h : data.status_code = JSVal.num 200)
    (ht : (c.retrieveMediaDetails p.previewTarget).mediaName.truthy = true)
    (hsrc : (c.retrieveMediaDetails p.previewSource).mediaName.truthy = true)
    (hr : resolveMultiface c p.multiface p.previewTarget = some (clickedPreview, clicks))
    (htf : (c.retrieveSelectedFaceData clickedPreview).truthy = true)
    (hsf : (c.retrieveSelectedFaceData p.previewSource).truthy = true) :
    (processFaceSwap c data p).trace =
      [Effect.retrieveMediaDetails Slot.target (c.retrieveMediaDetails p.previewTarget),
       Effect.retrieveMediaDetails Slot.source (c.retrieveMediaDetails p.previewSource)] ++
      clicks ++
      [Effect.retrieveSelectedFaceData Slot.target (c.retrieveSelectedFaceData clickedPreview),
       Effect.retrieveSelectedFaceData Slot.source
         (c.retrieveSelectedFaceData p.previewSource),
       Effect.fetch "/synthesize_face_swap/" "POST" "application/json"
         (faceSwapParameters (c.retrieveMediaDetails p.previewTarget)
            (c.retrieveMediaDetails p.previewSource)
            (c.retrieveSelectedFaceData clickedPreview)
            (c.retrieveSelectedFaceData p.previewSource) p.multiface p),
       Effect.closeTutorial] := by
  rw [processFaceSwap_submitted c data p clickedPreview clicks h ht hsrc hr htf hsf]
  simp [Outcome.log, faceDataRead_trace]

/-- Whenever a validation fails, no `fetch` and no `closeTutorial` call is made: the busy,
missing media, missing canvas and missing face data paths. -/
theorem processFaceSwap_aborted (c : Collab) (data : StatusResponse) (p : Panel)
    (h : data.status_code ≠ JSVal.num 200 ∨
      (c.retrieveMediaDetails p.previewTarget).mediaName.truthy = false ∨
      (c.retrieveMediaDetails p.previewSource).mediaName.truthy = false ∨
      resolveMultiface c p.multiface p.previewTarget = none ∨
      ∃ q es, resolveMultiface c p.multiface p.previewTarget = some (q, es) ∧
        ((c.retrieveSelectedFaceData q).truthy = false ∨
         (c.retrieveSelectedFaceData p.previewSource).truthy = false)) :
    ∀ e ∈ (processFaceSwap c data p).trace, e.isSubmission = false := by
  by_cases h200 : data.status_code = JSVal.num 200
  swap
  · rw [processFaceSwap_busy_trace c data p h200]
    simp [Effect.isSubmission]
  by_cases hm : (c.retrieveMediaDetails p.previewTarget).mediaName.truthy = false ∨
      (c.retrieveMediaDetails p.previewSource).mediaName.truthy = false
  · rw [processFaceSwap_missingMedia_trace c data p h200 hm]
    simp only [List.forall_mem_append]
    refine ⟨⟨by simp [Effect.isSubmission], ?_⟩, ?_⟩ <;> split_ifs <;>
      simp [Effect.isSubmission]
  have ht : (c.retrieveMediaDetails p.previewTarget).mediaName.truthy = true := by
    cases hv : (c.retrieveMediaDetails p.previewTarget).mediaName.truthy <;> simp_all
  have hsrc : (c.retrieveMediaDetails p.previewSource).mediaName.truthy = true := by
    cases hv : (c.retrieveMediaDetails p.previewSource).mediaName.truthy <;> simp_all
  rcases h with h | h | h | h | ⟨q, es, hr, hf⟩
  · exact absurd h200 h
  · simp_all
  · simp_all
  · rw [processFaceSwap_missingCanvas_trace c data p h200 ht hsrc h]
    simp [Effect.isSubmission]
  · rw [processFaceSwap_missingFace_trace c data p q es h200 ht hsrc hr hf]
    have hes := resolveMultiface_no_submission c p.multiface p.previewTarget q es hr
    simp only [List.forall_mem_append]
    refine ⟨⟨⟨⟨by simp [Effect.isSubmission], hes⟩, by simp [Effect.isSubmission]⟩, ?_⟩, ?_⟩ <;>
      split_ifs <;> simp [Effect.isSubmission]

/-- With an idle backend, the `displayStatus` calls made: a "load media" message for a slot
without media name, or else (both names present and the click step completed) a "face
selection" message for a slot without face data. -/
theorem displayStatus_mem_iff (c : Collab) (data : StatusResponse) (p : Panel)
    (h : data.status_code = JSVal.num 200) (slot : Slot) (msg : String) :
    Effect.displayStatus slot msg ∈ (processFaceSwap c data p).trace ↔
      ((slot = Slot.target ∧ msg = loadTargetMessage ∧
          (c.retrieveMediaDetails p.previewTarget).mediaName.truthy = false) ∨
       (slot = Slot.source ∧ msg = loadSourceMessage ∧
          (c.retrieveMediaDetails p.previewSource).mediaName.truthy = false) ∨
       ((c.retrieveMediaDetails p.previewTarget).mediaName.truthy = true ∧
        (c.retrieveMediaDetails p.previewSource).mediaName.truthy = true ∧
        ∃ q es, resolveMultiface c p.multiface p.previewTarget = some (q, es) ∧
          ((slot = Slot.target ∧ msg = faceTargetMessage ∧
              (c.retrieveSelectedFaceData q).truthy = false) ∨
           (slot = Slot.source ∧ msg = faceSourceMessage ∧
              (c.retrieveSelectedFaceData p.previewSource).truthy = false)))) := by
  by_cases hm : (c.retrieveMediaDetails p.previewTarget).mediaName.truthy = false ∨
      (c.retrieveMediaDetails p.previewSource).mediaName.truthy = false
  · rw [processFaceSwap_missingMedia_trace c data p h hm]
    cases ht : (c.retrieveMediaDetails p.previewTarget).mediaName.truthy <;>
    cases hsrc : (c.retrieveMediaDetails p.previewSource).mediaName.truthy <;>
    simp_all
  have ht : (c.retrieveMediaDetails p.previewTarget).mediaName.truthy = true := by
    cases hv : (c.retrieveMediaDetails p.previewTarget).mediaName.truthy <;> simp_all
  have hsrc : (c.retrieveMediaDetails p.previewSource).mediaName.truthy = true := by
    cases hv : (c.retrieveMediaDetails p.previewSource).mediaName.truthy <;> simp_all
  cases hr : resolveMultiface c p.multiface p.previewTarget with
  | none =>
    rw [processFaceSwap_missingCanvas_trace c data p h ht hsrc hr]
    simp [ht, hsrc]
  | some qe =>
    obtain ⟨q, es⟩ := qe
    have hes : Effect.displayStatus slot msg ∉ es := by
      rcases resolveMultiface_eq_some c _ _ q es hr with ⟨_, _, rfl⟩ | ⟨cv, _, _, _, rfl⟩ <;> simp
    by_cases hf : (c.retrieveSelectedFaceData q).truthy = false ∨
        (c.retrieveSelectedFaceData p.previewSource).truthy = false
    · rw [processFaceSwap_missingFace_trace c data p q es h ht hsrc hr hf]
      cases htf : (c.retrieveSelectedFaceData q).truthy <;>
      cases hsf : (c.retrieveSelectedFaceData p.previewSource).truthy <;>
      simp_all
    · have htf : (c.retrieveSelectedFaceData q).truthy = true := by
        cases hv : (c.retrieveSelectedFaceData q).truthy <;> simp_all
      have hsf : (c.retrieveSelectedFaceData p.previewSource).truthy = true := by
        cases hv : (c.retrieveSelectedFaceData p.previewSource).truthy <;> simp_all
      rw [processFaceSwap_submitted_trace c data p q es h ht hsrc hr htf hsf]
      simp [ht, hsrc, htf, hsf, hes]

/-! ## The status paragraphs once the waiting `displayStatus` calls have resumed -/

/-- Busy path: both status paragraphs show their translated busy message, in whichever order
the translations resolve. -/
theorem settle_busy (c : Collab) (data : StatusResponse) (p : Panel) (lastFirst : Bool)
    (h : data.status_code ≠ JSVal.num 200) :
    (settle c lastFirst (processFaceSwap c data p)).panel.messageTarget.shows
      (c.translateWithGoogle busyTargetMessage "auto" c.targetLang) ∧
    (settle c lastFirst (processFaceSwap c data p)).panel.messageSource.shows
      (c.translateWithGoogle busySourceMessage "auto" c.targetLang) := by
  rw [processFaceSwap_busy c data p h]
  cases lastFirst <;>
    simp [settle, displayStatus, resumeDisplayStatus, clearMessages, Panel.setMessage,
      StatusElem.shows]

/-- Missing media path: a slot without media name shows its translated "load media" message,
a slot with one stays empty and hidden. -/
theorem settle_missingMedia (c : Collab) (data : StatusResponse) (p : Panel) (lastFirst : Bool)
    (h : data.status_code = JSVal.num 200)
    (hm : (c.retrieveMediaDetails p.previewTarget).mediaName.truthy = false ∨
          (c.retrieveMediaDetails p.previewSource).mediaName.truthy = false) :
    ((c.retrieveMediaDetails p.previewTarget).mediaName.truthy = false →
      (settle c lastFirst (processFaceSwap c data p)).panel.messageTarget.shows
        (c.translateWithGoogle loadTargetMessage "auto" c.targetLang)) ∧
    ((c.retrieveMediaDetails p.previewTarget).mediaName.truthy = true →
      (settle c lastFirst (processFaceSwap c data p)).panel.messageTarget.cleared) ∧
    ((c.retrieveMediaDetails p.previewSource).mediaName.truthy = false →
      (settle c lastFirst (processFaceSwap c data p)).panel.messageSource.shows
        (c.translateWithGoogle loadSourceMessage "auto" c.targetLang)) ∧
    ((c.retrieveMediaDetails p.previewSource).mediaName.truthy = true →
      (settle c lastFirst (processFaceSwap c data p)).panel.messageSource.cleared) := by
  rw [processFaceSwap_missingMedia c data p h hm]
  cases ht : (c.retrieveMediaDetails p.previewTarget).mediaName.truthy <;>
  cases hsrc : (c.retrieveMediaDetails p.previewSource).mediaName.truthy <;>
  cases lastFirst <;>
  simp_all [settle, displayStatus, resumeDisplayStatus, detailsRead, clearMessages, Outcome.log,
    Panel.setMessage, StatusElem.shows, StatusElem.cleared, clearStatus]

/-- Missing canvas path: both status paragraphs stay empty and hidden. -/
theorem settle_missingCanvas (c : Collab) (data : StatusResponse) (p : Panel)
    (lastFirst : Bool)
    (h : data.status_code = JSVal.num 200)
    (ht : (c.retrieveMediaDetails p.previewTarget).mediaName.truthy = true)
    (hsrc : (c.retrieveMediaDetails p.previewSource).mediaName.truthy = true)
    (hr : resolveMultiface c p.multiface p.previewTarget = none) :
    (settle c lastFirst (processFaceSwap c data p)).panel.messageTarget.cleared ∧
    (settle c lastFirst (processFaceSwap c data p)).panel.messageSource.cleared := by
  rw [processFaceSwap_missingCanvas c data p h ht hsrc hr]
  cases lastFirst <;>
    simp [settle, detailsRead, clearMessages, Outcome.log, StatusElem.cleared, clearStatus]

/-- Missing face data path: a slot without face data shows its translated "face selection"
message, a slot with face data stays empty and hidden. -/
theorem settle_missingFace (c : Collab) (data : StatusResponse) (p : Panel)
    (q : Preview) (es : List Effect) (lastFirst : Bool)
    (h : data.status_code = JSVal.num 200)
    (ht : (c.retrieveMediaDetails p.previewTarget).mediaName.truthy = true)
    (hsrc : (c.retrieveMediaDetails p.previewSource).mediaName.truthy = true)
    (hr : resolveMultiface c p.multiface p.previewTarget = some (q, es))
    (hf : (c.retrieveSelectedFaceData q).truthy = false ∨
          (c.retrieveSelectedFaceData p.previewSource).truthy = false) :
    ((c.retrieveSelectedFaceData q).truthy = false →
      (settle c lastFirst (processFaceSwap c data p)).panel.messageTarget.shows
        (c.translateWithGoogle faceTargetMessage "auto" c.targetLang)) ∧
    ((c.retrieveSelectedFaceData q).truthy = true →
      (settle c lastFirst (processFaceSwap c data p)).panel.messageTarget.cleared) ∧
    ((c.retrieveSelectedFaceData p.previewSource).truthy = false →
      (settle c lastFirst (processFaceSwap c data p)).panel.messageSource.shows
        (c.translateWithGoogle faceSourceMessage "auto" c.targetLang)) ∧
    ((c.retrieveSelectedFaceData p.previewSource).truthy = true →
      (settle c lastFirst (processFaceSwap c data p)).panel.messageSource.cleared) := by
  rw [processFaceSwap_missingFace c data p q es h ht hsrc hr hf]
  cases htf : (c.retrieveSelectedFaceData q).truthy <;>
  cases hsf : (c.retrieveSelectedFaceData p.previewSource).truthy <;>
  cases lastFirst <;>
  simp_all [settle, displayStatus, resumeDisplayStatus, faceDataRead, detailsRead,
    clearMessages, Outcome.log, Panel.setMessage, StatusElem.shows, StatusElem.cleared,
    clearStatus]

/-- Submission path: both status paragraphs stay empty and hidden. -/
theorem settle_submitted (c : Collab) (data : StatusResponse) (p : Panel)
    (q : Preview) (es : List Effect) (lastFirst : Bool)
    (h : data.status_code = JSVal.num 200)
    (ht : (c.retrieveMediaDetails p.previewTarget).mediaName.truthy = true)
    (hsrc : (c.retrieveMediaDetails p.previewSource).mediaName.truthy = true)
    (hr : resolveMultiface c p.multiface p.previewTarget = some (q, es))
    (htf : (c.retrieveSelectedFaceData q).truthy = true)
    (hsf : (c.retrieveSelectedFaceData p.previewSource).truthy = true) :
    (settle c lastFirst (processFaceSwap c data p)).panel.messageTarget.cleared ∧
    (settle c lastFirst (processFaceSwap c data p)).panel.messageSource.cleared := by
  rw [processFaceSwap_submitted c data p q es h ht hsrc hr htf hsf]
  cases lastFirst <;>
    simp [settle, faceDataRead, detailsRead, clearMessages, Outcome.log, StatusElem.cleared,
      clearStatus]

/-! ## The claims about `processFaceSwap` -/

/-- C1: the POST to `/synthesize_face_swap/` is dispatched or `closeTutorial` called only if
`data.status_code` is 200, the media details of both slots were read and each has a truthy
`mediaName`, and the face data of both slots were read and each is truthy; in every other
case no POST is sent and `closeTutorial` is not called. -/
theorem submission_only_after_validation (c : Collab) (data : StatusResponse) (p : Panel) :
    ((processFaceSwap c data p).posted ∨ (processFaceSwap c data p).closed) →
      data.status_code = JSVal.num 200 ∧
      (∀ slot, Effect.retrieveMediaDetails slot (c.retrieveMediaDetails (p.preview slot)) ∈
        (processFaceSwap c data p).trace) ∧
      (∀ slot d, Effect.retrieveMediaDetails slot d ∈ (processFaceSwap c data p).trace →
        d.mediaName.truthy = true) ∧
      (∀ slot, ∃ v, Effect.retrieveSelectedFaceData slot v ∈ (processFaceSwap c data p).trace) ∧
      (∀ slot v, Effect.retrieveSelectedFaceData slot v ∈ (processFaceSwap c data p).trace →
        v.truthy = true) := by
  intro hsub
  have hno : ¬ (data.status_code ≠ JSVal.num 200 ∨
      (c.retrieveMediaDetails p.previewTarget).mediaName.truthy = false ∨
      (c.retrieveMediaDetails p.previewSource).mediaName.truthy = false ∨
      resolveMultiface c p.multiface p.previewTarget = none ∨
      ∃ q es, resolveMultiface c p.multiface p.previewTarget = some (q, es) ∧
        ((c.retrieveSelectedFaceData q).truthy = false ∨
         (c.retrieveSelectedFaceData p.previewSource).truthy = false)) := by
    intro habort
    have hn := not_submitted_of_trace _ (processFaceSwap_aborted c data p habort)
    rcases hsub with hp | hc
    · exact hn.1 hp
    · exact hn.2.2 hc
  have h200 : data.status_code = JSVal.num 200 := by
    by_contra h; exact hno (Or.inl h)
  have ht : (c.retrieveMediaDetails p.previewTarget).mediaName.truthy = true := by
    cases hv : (c.retrieveMediaDetails p.previewTarget).mediaName.truthy
    · exact absurd (Or.inr (Or.inl hv)) hno
    · rfl
  have hsrc : (c.retrieveMediaDetails p.previewSource).mediaName.truthy = true := by
    cases hv : (c.retrieveMediaDetails p.previewSource).mediaName.truthy
    · exact absurd (Or.inr (Or.inr (Or.inl hv))) hno
    · rfl
  cases hr : resolveMultiface c p.multiface p.previewTarget with
  | none => exact absurd (Or.inr (Or.inr (Or.inr (Or.inl hr)))) hno
  | some qe =>
    obtain ⟨q, es⟩ := qe
    have htf : (c.retrieveSelectedFaceData q).truthy = true := by
      cases hv : (c.retrieveSelectedFaceData q).truthy
      · exact absurd (Or.inr (Or.inr (Or.inr (Or.inr ⟨q, es, hr, Or.inl hv⟩)))) hno
      · rfl
    have hsf : (c.retrieveSelectedFaceData p.previewSource).truthy = true := by
      cases hv : (c.retrieveSelectedFaceData p.previewSource).truthy
      · exact absurd (Or.inr (Or.inr (Or.inr (Or.inr ⟨q, es, hr, Or.inr hv⟩)))) hno
      · rfl
    rw [processFaceSwap_submitted_trace c data p q es h200 ht hsrc hr htf hsf]
    refine ⟨h200, ?_, ?_, ?_, ?_⟩
    · intro slot; cases slot <;> simp [Panel.preview]
    · intro slot d hd
      rcases resolveMultiface_eq_some c _ _ q es hr with ⟨_, _, rfl⟩ | ⟨cv, _, _, _, rfl⟩ <;>
        simp at hd <;> rcases hd with ⟨_, rfl⟩ | ⟨_, rfl⟩ <;> assumption
    · intro slot
      cases slot
      · exact ⟨c.retrieveSelectedFaceData q, by simp⟩
      · exact ⟨c.retrieveSelectedFaceData p.previewSource, by simp⟩
    · intro slot v hv
      rcases resolveMultiface_eq_some c _ _ q es hr with ⟨_, _, rfl⟩ | ⟨cv, _, _, _, rfl⟩ <;>
        simp at hv <;> rcases hv with ⟨_, rfl⟩ | ⟨_, rfl⟩ <;> assumption

/-- A run of C1: the ready panel with an idle backend is submitted, so all validations
held. -/
theorem submission_only_after_validation_witness :
    (processFaceSwap sampleCollab idleResponse readyPanel).posted ∧
    idleResponse.status_code = JSVal.num 200 ∧
    (∀ slot v, Effect.retrieveSelectedFaceData slot v ∈
        (processFaceSwap sampleCollab idleResponse readyPanel).trace → v.truthy = true) :=
  have hp : (processFaceSwap sampleCollab idleResponse readyPanel).posted :=
    ⟨"application/json", readyParameters, by decide⟩
  ⟨hp, (submission_only_after_validation sampleCollab idleResponse readyPanel (Or.inl hp)).1,
    (submission_only_after_validation sampleCollab idleResponse readyPanel (Or.inl hp)).2.2.2.2⟩

/-- C2: for every status response whose `status_code` is not 200, `processFaceSwap` calls
`displayStatus` with a busy message on the target and on the source status element and
makes no other call: it reads no media details and no face data, sends no request (so no
payload is passed on), and does not close the panel; once the two calls have resumed, in
whichever order, both status elements are displayed with their translated busy message as
text. -/
theorem busy_backend_aborts (c : Collab) (data : StatusResponse) (p : Panel)
    (h : data.status_code ≠ JSVal.num 200) :
    (processFaceSwap c data p).trace =
      [Effect.displayStatus Slot.target busyTargetMessage,
       Effect.displayStatus Slot.source busySourceMessage] ∧
    (∀ lastFirst,
      (settle c lastFirst (processFaceSwap c data p)).panel.messageTarget.shows
        (c.translateWithGoogle busyTargetMessage "auto" c.targetLang) ∧
      (settle c lastFirst (processFaceSwap c data p)).panel.messageSource.shows
        (c.translateWithGoogle busySourceMessage "auto" c.targetLang)) ∧
    (∀ slot d, Effect.retrieveMediaDetails slot d ∉ (processFaceSwap c data p).trace) ∧
    (∀ slot v, Effect.retrieveSelectedFaceData slot v ∉ (processFaceSwap c data p).trace) ∧
    ¬ (processFaceSwap c data p).fetched ∧
    ¬ (processFaceSwap c data p).posted ∧
    ¬ (processFaceSwap c data p).closed ∧
    (processFaceSwap c data p).thrown = none := by
  have hn := not_submitted_of_trace _ (processFaceSwap_aborted c data p (Or.inl h))
  refine ⟨processFaceSwap_busy_trace c data p h, ?_, ?_, ?_, hn.2.1, hn.1, hn.2.2, ?_⟩
  · intro lastFirst
    exact settle_busy c data p lastFirst h
  · intro slot d; rw [processFaceSwap_busy_trace c data p h]; simp
  · intro slot v; rw [processFaceSwap_busy_trace c data p h]; simp
  · rw [processFaceSwap_busy c data p h]; rfl

/-- A run of C2: status code 300 on the ready panel. -/
theorem busy_backend_aborts_witness :
    busyResponse.status_code ≠ JSVal.num 200 ∧
    (processFaceSwap sampleCollab busyResponse readyPanel).trace =
      [Effect.displayStatus Slot.target busyTargetMessage,
       Effect.displayStatus Slot.source busySourceMessage] ∧
    (settle sampleCollab true
      (processFaceSwap sampleCollab busyResponse readyPanel)).panel.messageTarget.shows
        "The process is busy" ∧
    (settle sampleCollab true
      (processFaceSwap sampleCollab busyResponse readyPanel)).panel.messageSource.shows
        "Wait for the previous process to finish" ∧
    ¬ (processFaceSwap sampleCollab busyResponse readyPanel).posted :=
  ⟨by decide,
   (busy_backend_aborts sampleCollab busyResponse readyPanel (by decide)).1,
   ((busy_backend_aborts sampleCollab busyResponse readyPanel (by decide)).2.1 true).1,
   ((busy_backend_aborts sampleCollab busyResponse readyPanel (by decide)).2.1 true).2,
   (busy_backend_aborts sampleCollab busyResponse readyPanel (by decide)).2.2.2.2.2.1⟩

/-- C4: with an idle backend the target status element receives the "load target media"
message exactly when the target `mediaName` is falsy, and the source status element the
"load source media" message exactly when the source `mediaName` is falsy (both when both
are): the `displayStatus` call is made exactly then and, once resumed, the element is
displayed with the translated message as text, while the element of a slot that has a name
stays empty and hidden; if either name is falsy nothing is fetched and the panel is not
closed.  With the target name falsy and the source name present, the only message shown is
the target one, the source status element stays empty and hidden, and no POST is issued. -/
theorem missing_media_reported_per_slot (c : Collab) (data : StatusResponse) (p : Panel)
    (h : data.status_code = JSVal.num 200) :
    (Effect.displayStatus Slot.target loadTargetMessage ∈ (processFaceSwap c data p).trace ↔
      (c.retrieveMediaDetails p.previewTarget).mediaName.truthy = false) ∧
    (Effect.displayStatus Slot.source loadSourceMessage ∈ (processFaceSwap c data p).trace ↔
      (c.retrieveMediaDetails p.previewSource).mediaName.truthy = false) ∧
    (((c.retrieveMediaDetails p.previewTarget).mediaName.truthy = false ∨
      (c.retrieveMediaDetails p.previewSource).mediaName.truthy = false) →
      ¬ (processFaceSwap c data p).posted ∧ ¬ (processFaceSwap c data p).fetched ∧
      ¬ (processFaceSwap c data p).closed ∧
      ∀ lastFirst,
        ((c.retrieveMediaDetails p.previewTarget).mediaName.truthy = false →
          (settle c lastFirst (processFaceSwap c data p)).panel.messageTarget.shows
            (c.translateWithGoogle loadTargetMessage "auto" c.targetLang)) ∧
        ((c.retrieveMediaDetails p.previewTarget).mediaName.truthy = true →
          (settle c lastFirst (processFaceSwap c data p)).panel.messageTarget.cleared) ∧
        ((c.retrieveMediaDetails p.previewSource).mediaName.truthy = false →
          (settle c lastFirst (processFaceSwap c data p)).panel.messageSource.shows
            (c.translateWithGoogle loadSourceMessage "auto" c.targetLang)) ∧
        ((c.retrieveMediaDetails p.previewSource).mediaName.truthy = true →
          (settle c lastFirst (processFaceSwap c data p)).panel.messageSource.cleared)) ∧
    ((c.retrieveMediaDetails p.previewTarget).mediaName.truthy = false →
      (c.retrieveMediaDetails p.previewSource).mediaName.truthy = true →
      (∀ slot msg, Effect.displayStatus slot msg ∈ (processFaceSwap c data p).trace ↔
        slot = Slot.target ∧ msg = loadTargetMessage) ∧
      (∀ lastFirst,
        (settle c lastFirst (processFaceSwap c data p)).panel.messageTarget.shows
          (c.translateWithGoogle loadTargetMessage "auto" c.targetLang) ∧
        (settle c lastFirst (processFaceSwap c data p)).panel.messageSource.content =
          Content.html "" ∧
        (settle c lastFirst (processFaceSwap c data p)).panel.messageSource.display =
          "none") ∧
      ¬ (processFaceSwap c data p).posted) := by
  refine ⟨?_, ?_, ?_, ?_⟩
  · rw [displayStatus_mem_iff c data p h]
    simp [loadTargetMessage, loadSourceMessage, faceTargetMessage, faceSourceMessage]
  · rw [displayStatus_mem_iff c data p h]
    simp [loadTargetMessage, loadSourceMessage, faceTargetMessage, faceSourceMessage]
  · intro hm
    have hn := not_submitted_of_trace _
      (processFaceSwap_aborted c data p (Or.inr (by tauto)))
    exact ⟨hn.1, hn.2.1, hn.2.2, fun lastFirst => settle_missingMedia c data p lastFirst h hm⟩
  · intro ht hsrc
    have hn := not_submitted_of_trace _
      (processFaceSwap_aborted c data p (Or.inr (Or.inl ht)))
    refine ⟨?_, ?_, hn.1⟩
    · intro slot msg
      rw [displayStatus_mem_iff c data p h]
      simp [ht, hsrc]
    · intro lastFirst
      have hset := settle_missingMedia c data p lastFirst h (Or.inl ht)
      exact ⟨hset.1 ht, (hset.2.2.2 hsrc).1, (hset.2.2.2 hsrc).2⟩

/-- The scenario of C4: target slot empty, source slot holding `src.png` with a face picked,
idle backend. -/
theorem missing_media_reported_per_slot_witness :
    idleResponse.status_code = JSVal.num 200 ∧
    (sampleCollab.retrieveMediaDetails sourceOnlyPanel.previewSource).mediaName =
      JSVal.str "src.png" ∧
    Effect.displayStatus Slot.target loadTargetMessage ∈
      (processFaceSwap sampleCollab idleResponse sourceOnlyPanel).trace ∧
    Effect.displayStatus Slot.source loadSourceMessage ∉
      (processFaceSwap sampleCollab idleResponse sourceOnlyPanel).trace ∧
    (settle sampleCollab false
      (processFaceSwap sampleCollab idleResponse sourceOnlyPanel)).panel.messageTarget.shows
        loadTargetMessage ∧
    (settle sampleCollab false
      (processFaceSwap sampleCollab idleResponse sourceOnlyPanel)).panel.messageSource.display =
        "none" ∧
    ¬ (processFaceSwap sampleCollab idleResponse sourceOnlyPanel).posted :=
  have hw := missing_media_reported_per_slot sampleCollab idleResponse sourceOnlyPanel
    (by decide)
  ⟨by decide, by decide, hw.1.2 (by decide), fun hmem => absurd (hw.2.1.1 hmem) (by decide),
   ((hw.2.2.2 (by decide) (by decide)).2.1 false).1,
   ((hw.2.2.2 (by decide) (by decide)).2.1 false).2.2,
   (hw.2.2.2 (by decide) (by decide)).2.2⟩

/-- C5 as stated fails: with an idle backend, both media names present, the multiface box
checked and no `.canvasMedia` element in the target preview, the target has no face data,
yet `processFaceSwap` throws at line 173 before the face-selection check: no face-selection
message is requested and the target status element stays empty and hidden. -/
theorem missing_face_counterexample :
    idleResponse.status_code = JSVal.num 200 ∧
    (sampleCollab.retrieveMediaDetails noCanvasPanel.previewTarget).mediaName.truthy = true ∧
    (sampleCollab.retrieveMediaDetails noCanvasPanel.previewSource).mediaName.truthy = true ∧
    (sampleCollab.retrieveSelectedFaceData noCanvasPanel.previewTarget).truthy = false ∧
    Effect.displayStatus Slot.target faceTargetMessage ∉
      (processFaceSwap sampleCollab idleResponse noCanvasPanel).trace ∧
    (settle sampleCollab false
      (processFaceSwap sampleCollab idleResponse noCanvasPanel)).panel.messageTarget =
        { content := Content.html "", display := "none", background := "" } ∧
    (settle sampleCollab true
      (processFaceSwap sampleCollab idleResponse noCanvasPanel)).panel.messageTarget =
        { content := Content.html "", display := "none", background := "" } ∧
    (processFaceSwap sampleCollab idleResponse noCanvasPanel).thrown = some "TypeError" := by
  decide

/-- C5 amended: with an idle backend, both media names present and the click step completed
(multiface unchecked, or the target preview holds its `.canvasMedia` element), the target
status element receives the "face selection on target" message exactly when the target face
data is falsy and the source status element the "face selection on source" message exactly
when the source face data is falsy: the `displayStatus` call is made exactly then and, once
resumed, the element is displayed with the translated message as text, while the element of
a slot with face data stays empty and hidden; if either is falsy nothing is fetched and the
panel is not closed.  When a media name is missing no face-selection message is requested
on either element: the elements hold the busy messages, or else each holds its "load media"
message or stays empty and hidden. -/
theorem missing_face_reported_per_slot (c : Collab) (data : StatusResponse) (p : Panel) :
    (∀ q es, data.status_code = JSVal.num 200 →
      (c.retrieveMediaDetails p.previewTarget).mediaName.truthy = true →
      (c.retrieveMediaDetails p.previewSource).mediaName.truthy = true →
      resolveMultiface c p.multiface p.previewTarget = some (q, es) →
      (Effect.displayStatus Slot.target faceTargetMessage ∈ (processFaceSwap c data p).trace ↔
        (c.retrieveSelectedFaceData q).truthy = false) ∧
      (Effect.displayStatus Slot.source faceSourceMessage ∈ (processFaceSwap c data p).trace ↔
        (c.retrieveSelectedFaceData p.previewSource).truthy = false) ∧
      (((c.retrieveSelectedFaceData q).truthy = false ∨
        (c.retrieveSelectedFaceData p.previewSource).truthy = false) →
        ¬ (processFaceSwap c data p).posted ∧ ¬ (processFaceSwap c data p).fetched ∧
        ¬ (processFaceSwap c data p).closed ∧
        ∀ lastFirst,
          ((c.retrieveSelectedFaceData q).truthy = false →
            (settle c lastFirst (processFaceSwap c data p)).panel.messageTarget.shows
              (c.translateWithGoogle faceTargetMessage "auto" c.targetLang)) ∧
          ((c.retrieveSelectedFaceData q).truthy = true →
            (settle c lastFirst (processFaceSwap c data p)).panel.messageTarget.cleared) ∧
          ((c.retrieveSelectedFaceData p.previewSource).truthy = false →
            (settle c lastFirst (processFaceSwap c data p)).panel.messageSource.shows
              (c.translateWithGoogle faceSourceMessage "auto" c.targetLang)) ∧
          ((c.retrieveSelectedFaceData p.previewSource).truthy = true →
            (settle c lastFirst (processFaceSwap c data p)).panel.messageSource.cleared))) ∧
    (((c.retrieveMediaDetails p.previewTarget).mediaName.truthy = false ∨
      (c.retrieveMediaDetails p.previewSource).mediaName.truthy = false) →
      (∀ slot, Effect.displayStatus slot faceTargetMessage ∉ (processFaceSwap c data p).trace ∧
        Effect.displayStatus slot faceSourceMessage ∉ (processFaceSwap c data p).trace) ∧
      ∀ lastFirst,
        (data.status_code ≠ JSVal.num 200 →
          (settle c lastFirst (processFaceSwap c data p)).panel.messageTarget.shows
            (c.translateWithGoogle busyTargetMessage "auto" c.targetLang) ∧
          (settle c lastFirst (processFaceSwap c data p)).panel.messageSource.shows
            (c.translateWithGoogle busySourceMessage "auto" c.targetLang)) ∧
        (data.status_code = JSVal.num 200 →
          ((c.retrieveMediaDetails p.previewTarget).mediaName.truthy = false →
            (settle c lastFirst (processFaceSwap c data p)).panel.messageTarget.shows
              (c.translateWithGoogle loadTargetMessage "auto" c.targetLang)) ∧
          ((c.retrieveMediaDetails p.previewTarget).mediaName.truthy = true →
            (settle c lastFirst (processFaceSwap c data p)).panel.messageTarget.cleared) ∧
          ((c.retrieveMediaDetails p.previewSource).mediaName.truthy = false →
            (settle c lastFirst (processFaceSwap c data p)).panel.messageSource.shows
              (c.translateWithGoogle loadSourceMessage "auto" c.targetLang)) ∧
          ((c.retrieveMediaDetails p.previewSource).mediaName.truthy = true →
            (settle c lastFirst (processFaceSwap c data p)).panel.messageSource.cleared))) := by
  constructor
  · intro q es h ht hsrc hr
    refine ⟨?_, ?_, ?_⟩
    · rw [displayStatus_mem_iff c data p h]
      simp [loadTargetMessage, loadSourceMessage, faceTargetMessage, faceSourceMessage, ht,
        hsrc, hr]
    · rw [displayStatus_mem_iff c data p h]
      simp [loadTargetMessage, loadSourceMessage, faceTargetMessage, faceSourceMessage, ht,
        hsrc, hr]
    · intro hf
      have hn := not_submitted_of_trace _
        (processFaceSwap_aborted c data p (Or.inr (Or.inr (Or.inr (Or.inr ⟨q, es, hr, hf⟩)))))
      exact ⟨hn.1, hn.2.1, hn.2.2,
        fun lastFirst => settle_missingFace c data p q es lastFirst h ht hsrc hr hf⟩
  · intro hm
    constructor
    · intro slot
      by_cases h : data.status_code = JSVal.num 200
      · rw [displayStatus_mem_iff c data p h, displayStatus_mem_iff c data p h]
        rcases hm with hm | hm <;>
          simp [loadTargetMessage, loadSourceMessage, faceTargetMessage, faceSourceMessage, hm]
      · rw [processFaceSwap_busy_trace c data p h]
        simp [busyTargetMessage, busySourceMessage, faceTargetMessage, faceSourceMessage]
    · intro lastFirst
      exact ⟨fun h => settle_busy c data p lastFirst h,
        fun h => settle_missingMedia c data p lastFirst h hm⟩

/-- A run of C5 amended: both media loaded, no face picked on either, idle backend; and the
panel with the target slot empty. -/
theorem missing_face_reported_per_slot_witness :
    Effect.displayStatus Slot.target faceTargetMessage ∈
      (processFaceSwap sampleCollab idleResponse unpickedPanel).trace ∧
    Effect.displayStatus Slot.source faceSourceMessage ∈
      (processFaceSwap sampleCollab idleResponse unpickedPanel).trace ∧
    (settle sampleCollab true
      (processFaceSwap sampleCollab idleResponse unpickedPanel)).panel.messageTarget.shows
        faceTargetMessage ∧
    (settle sampleCollab true
      (processFaceSwap sampleCollab idleResponse unpickedPanel)).panel.messageSource.shows
        faceSourceMessage ∧
    ¬ (processFaceSwap sampleCollab idleResponse unpickedPanel).posted ∧
    Effect.displayStatus Slot.target faceTargetMessage ∉
      (processFaceSwap sampleCollab idleResponse sourceOnlyPanel).trace :=
  have hw := (missing_face_reported_per_slot sampleCollab idleResponse unpickedPanel).1
    unpickedPanel.previewTarget [] (by decide) (by decide) (by decide) (by decide)
  ⟨hw.1.2 (by decide), hw.2.1.2 (by decide),
   ((hw.2.2 (Or.inl (by decide))).2.2.2 true).1 (by decide),
   ((hw.2.2 (Or.inl (by decide))).2.2.2 true).2.2.1 (by decide),
   (hw.2.2 (Or.inl (by decide))).1,
   (((missing_face_reported_per_slot sampleCollab idleResponse sourceOnlyPanel).2
      (Or.inl (by decide))).1 Slot.target).1⟩

/-- The calls of a completed click step are `dispatchEvent` calls. -/
theorem resolveMultiface_filter_dispatch (c : Collab) (m : Bool) (pv q : Preview)
    (es : List Effect) (h : resolveMultiface c m pv = some (q, es)) :
    es.filter Effect.isDispatch = es := by
  rcases resolveMultiface_eq_some c m pv q es h with ⟨_, _, rfl⟩ | ⟨cv, _, _, _, rfl⟩ <;>
    simp [Effect.isDispatch]

/-- The `dispatchEvent` calls of `processFaceSwap` are those of its click step, which is
reached only with an idle backend and both media names present. -/
theorem dispatch_calls (c : Collab) (data : StatusResponse) (p : Panel) :
    (processFaceSwap c data p).trace.filter Effect.isDispatch =
      if data.status_code = JSVal.num 200 ∧
          (c.retrieveMediaDetails p.previewTarget).mediaName.truthy = true ∧
          (c.retrieveMediaDetails p.previewSource).mediaName.truthy = true then
        match resolveMultiface c p.multiface p.previewTarget with
        | some (_, es) => es
        | none => []
      else [] := by
  by_cases h : data.status_code = JSVal.num 200
  swap
  · rw [processFaceSwap_busy_trace c data p h]
    simp [h, Effect.isDispatch]
  by_cases hm : (c.retrieveMediaDetails p.previewTarget).mediaName.truthy = false ∨
      (c.retrieveMediaDetails p.previewSource).mediaName.truthy = false
  · rw [processFaceSwap_missingMedia_trace c data p h hm]
    cases ht : (c.retrieveMediaDetails p.previewTarget).mediaName.truthy <;>
    cases hsrc : (c.retrieveMediaDetails p.previewSource).mediaName.truthy <;>
    simp_all [Effect.isDispatch]
  have ht : (c.retrieveMediaDetails p.previewTarget).mediaName.truthy = true := by
    cases hv : (c.retrieveMediaDetails p.previewTarget).mediaName.truthy <;> simp_all
  have hsrc : (c.retrieveMediaDetails p.previewSource).mediaName.truthy = true := by
    cases hv : (c.retrieveMediaDetails p.previewSource).mediaName.truthy <;> simp_all
  cases hr : resolveMultiface c p.multiface p.previewTarget with
  | none =>
    rw [processFaceSwap_missingCanvas_trace c data p h ht hsrc hr]
    simp [h, ht, hsrc, Effect.isDispatch]
  | some qe =>
    obtain ⟨q, es⟩ := qe
    have hes := resolveMultiface_filter_dispatch c _ _ q es hr
    by_cases hf : (c.retrieveSelectedFaceData q).truthy = false ∨
        (c.retrieveSelectedFaceData p.previewSource).truthy = false
    · rw [processFaceSwap_missingFace_trace c data p q es h ht hsrc hr hf]
      cases htf : (c.retrieveSelectedFaceData q).truthy <;>
      cases hsf : (c.retrieveSelectedFaceData p.previewSource).truthy <;>
      simp_all [Effect.isDispatch, List.filter_append]
    · have htf : (c.retrieveSelectedFaceData q).truthy = true := by
        cases hv : (c.retrieveSelectedFaceData q).truthy <;> simp_all
      have hsf : (c.retrieveSelectedFaceData p.previewSource).truthy = true := by
        cases hv : (c.retrieveSelectedFaceData p.previewSource).truthy <;> simp_all
      rw [processFaceSwap_submitted_trace c data p q es h ht hsrc hr htf hsf]
      simp [h, ht, hsrc, hes, Effect.isDispatch, List.filter_append]

/-- The calls made up to line 177 when the click step completed, whatever follows. -/
theorem processFaceSwap_trace_start (c : Collab) (data : StatusResponse) (p : Panel)
    (q : Preview) (es : List Effect)
    (h : data.status_code = JSVal.num 200)
    (ht : (c.retrieveMediaDetails p.previewTarget).mediaName.truthy = true)
    (hsrc : (c.retrieveMediaDetails p.previewSource).mediaName.truthy = true)
    (hr : resolveMultiface c p.multiface p.previewTarget = some (q, es)) :
    ∃ rest, (processFaceSwap c data p).trace =
      [Effect.retrieveMediaDetails Slot.target (c.retrieveMediaDetails p.previewTarget),
       Effect.retrieveMediaDetails Slot.source (c.retrieveMediaDetails p.previewSource)] ++
      es ++
      [Effect.retrieveSelectedFaceData Slot.target (c.retrieveSelectedFaceData q),
       Effect.retrieveSelectedFaceData Slot.source
         (c.retrieveSelectedFaceData p.previewSource)] ++ rest := by
  by_cases hf : (c.retrieveSelectedFaceData q).truthy = false ∨
      (c.retrieveSelectedFaceData p.previewSource).truthy = false
  · rw [processFaceSwap_missingFace_trace c data p q es h ht hsrc hr hf]
    exact ⟨(if (c.retrieveSelectedFaceData q).truthy = false then
        [Effect.displayStatus Slot.target faceTargetMessage] else []) ++
      (if (c.retrieveSelectedFaceData p.previewSource).truthy = false then
        [Effect.displayStatus Slot.source faceSourceMessage] else []),
      by simp only [List.append_assoc]⟩
  · have htf : (c.retrieveSelectedFaceData q).truthy = true := by
      cases hv : (c.retrieveSelectedFaceData q).truthy <;> simp_all
    have hsf : (c.retrieveSelectedFaceData p.previewSource).truthy = true := by
      cases hv : (c.retrieveSelectedFaceData p.previewSource).truthy <;> simp_all
    rw [processFaceSwap_submitted_trace c data p q es h ht hsrc hr htf hsf]
    exact ⟨[Effect.fetch "/synthesize_face_swap/" "POST" "application/json"
         (faceSwapParameters (c.retrieveMediaDetails p.previewTarget)
            (c.retrieveMediaDetails p.previewSource)
            (c.retrieveSelectedFaceData q)
            (c.retrieveSelectedFaceData p.previewSource) p.multiface p),
       Effect.closeTutorial], by simp⟩

/-- C6: with the multiface box checked, the backend idle, both media names present and the
canvas of the target preview in place, `processFaceSwap` dispatches exactly one event: a
click with coordinates (0, 0) on the canvas of the target slot, after the media details are
read and before the face data of the target is read from the preview the click listeners
left; no event is dispatched on the source slot.  With the box unchecked no event is
dispatched at all. -/
theorem multiface_dispatches_one_click (c : Collab) (data : StatusResponse) (p : Panel) :
    (∀ canvas, data.status_code = JSVal.num 200 →
      (c.retrieveMediaDetails p.previewTarget).mediaName.truthy = true →
      (c.retrieveMediaDetails p.previewSource).mediaName.truthy = true →
      p.multiface = true →
      querySelectorCanvasMedia p.previewTarget = some canvas →
      (processFaceSwap c data p).trace.filter Effect.isDispatch =
        [Effect.dispatchEvent Slot.target canvas "click" clickEvent] ∧
      clickEvent.clientX = 0 ∧ clickEvent.clientY = 0 ∧
      ∃ rest, (processFaceSwap c data p).trace =
        [Effect.retrieveMediaDetails Slot.target (c.retrieveMediaDetails p.previewTarget),
         Effect.retrieveMediaDetails Slot.source (c.retrieveMediaDetails p.previewSource),
         Effect.dispatchEvent Slot.target canvas "click" clickEvent,
         Effect.retrieveSelectedFaceData Slot.target
           (c.retrieveSelectedFaceData (c.clickListeners p.previewTarget canvas clickEvent)),
         Effect.retrieveSelectedFaceData Slot.source
           (c.retrieveSelectedFaceData p.previewSource)] ++ rest) ∧
    (p.multiface = false →
      (processFaceSwap c data p).trace.filter Effect.isDispatch = []) := by
  constructor
  · intro canvas h ht hsrc hmulti hcanvas
    have hr : resolveMultiface c p.multiface p.previewTarget =
        some (c.clickListeners p.previewTarget canvas clickEvent,
          [Effect.dispatchEvent Slot.target canvas "click" clickEvent]) := by
      simp [resolveMultiface, hmulti, hcanvas]
    refine ⟨?_, rfl, rfl, ?_⟩
    · rw [dispatch_calls, hr]; simp [h, ht, hsrc]
    · obtain ⟨rest, hrest⟩ := processFaceSwap_trace_start c data p _ _ h ht hsrc hr
      exact ⟨rest, by rw [hrest]; simp⟩
  · intro hmulti
    rw [dispatch_calls]
    have hr : resolveMultiface c p.multiface p.previewTarget = some (p.previewTarget, []) := by
      simp [resolveMultiface, hmulti]
    rw [hr]; simp

/-- A run of C6: multiface checked, no face picked on the target, idle backend; and the
ready panel, where the box is unchecked. -/
theorem multiface_dispatches_one_click_witness :
    (processFaceSwap sampleCollab idleResponse multifacePanel).trace.filter Effect.isDispatch =
      [Effect.dispatchEvent Slot.target canvasNode "click" clickEvent] ∧
    (processFaceSwap sampleCollab idleResponse readyPanel).trace.filter Effect.isDispatch = [] :=
  ⟨((multiface_dispatches_one_click sampleCollab idleResponse multifacePanel).1 canvasNode
      (by decide) (by decide) (by decide) (by decide) (by decide)).1,
   (multiface_dispatches_one_click sampleCollab idleResponse readyPanel).2 (by decide)⟩

/-- A `fetch` call of `processFaceSwap` is the POST of line 201: the backend was idle, both
media names and both face data were truthy, and the body is the object of lines 185-199. -/
theorem fetch_mem (c : Collab) (data : StatusResponse) (p : Panel) (url method ct : String)
    (body : FaceSwapParameters)
    (hmem : Effect.fetch url method ct body ∈ (processFaceSwap c data p).trace) :
    ∃ q es, resolveMultiface c p.multiface p.previewTarget = some (q, es) ∧
      url = "/synthesize_face_swap/" ∧ method = "POST" ∧ ct = "application/json" ∧
      body = faceSwapParameters (c.retrieveMediaDetails p.previewTarget)
        (c.retrieveMediaDetails p.previewSource) (c.retrieveSelectedFaceData q)
        (c.retrieveSelectedFaceData p.previewSource) p.multiface p := by
  have hno : ¬ (data.status_code ≠ JSVal.num 200 ∨
      (c.retrieveMediaDetails p.previewTarget).mediaName.truthy = false ∨
      (c.retrieveMediaDetails p.previewSource).mediaName.truthy = false ∨
      resolveMultiface c p.multiface p.previewTarget = none ∨
      ∃ q es, resolveMultiface c p.multiface p.previewTarget = some (q, es) ∧
        ((c.retrieveSelectedFaceData q).truthy = false ∨
         (c.retrieveSelectedFaceData p.previewSource).truthy = false)) := by
    intro habort
    have hn := processFaceSwap_aborted c data p habort _ hmem
    simp [Effect.isSubmission] at hn
  have h200 : data.status_code = JSVal.num 200 := by
    by_contra h; exact hno (Or.inl h)
  have ht : (c.retrieveMediaDetails p.previewTarget).mediaName.truthy = true := by
    cases hv : (c.retrieveMediaDetails p.previewTarget).mediaName.truthy
    · exact absurd (Or.inr (Or.inl hv)) hno
    · rfl
  have hsrc : (c.retrieveMediaDetails p.previewSource).mediaName.truthy = true := by
    cases hv : (c.retrieveMediaDetails p.previewSource).mediaName.truthy
    · exact absurd (Or.inr (Or.inr (Or.inl hv))) hno
    · rfl
  cases hr : resolveMultiface c p.multiface p.previewTarget with
  | none => exact absurd (Or.inr (Or.inr (Or.inr (Or.inl hr)))) hno
  | some qe =>
    obtain ⟨q, es⟩ := qe
    have htf : (c.retrieveSelectedFaceData q).truthy = true := by
      cases hv : (c.retrieveSelectedFaceData q).truthy
      · exact absurd (Or.inr (Or.inr (Or.inr (Or.inr ⟨q, es, hr, Or.inl hv⟩)))) hno
      · rfl
    have hsf : (c.retrieveSelectedFaceData p.previewSource).truthy = true := by
      cases hv : (c.retrieveSelectedFaceData p.previewSource).truthy
      · exact absurd (Or.inr (Or.inr (Or.inr (Or.inr ⟨q, es, hr, Or.inr hv⟩)))) hno
      · rfl
    rw [processFaceSwap_submitted_trace c data p q es h200 ht hsrc hr htf hsf] at hmem
    have hes : Effect.fetch url method ct body ∉ es := by
      intro hin
      have := resolveMultiface_no_submission c _ _ q es hr _ hin
      simp [Effect.isSubmission] at this
    simp [hes] at hmem
    exact ⟨q, es, rfl, hmem.1, hmem.2.1, hmem.2.2.1, hmem.2.2.2⟩

/-- C7 as stated fails: with an idle backend, both media names and both face data present,
the multiface box checked and no `.canvasMedia` element in the target preview,
`processFaceSwap` throws at line 173 after reading the media details: it sends no POST and
does not close the panel. -/
theorem submission_counterexample :
    idleResponse.status_code = JSVal.num 200 ∧
    (sampleCollab.retrieveMediaDetails noCanvasPickedPanel.previewTarget).mediaName.truthy =
      true ∧
    (sampleCollab.retrieveMediaDetails noCanvasPickedPanel.previewSource).mediaName.truthy =
      true ∧
    (sampleCollab.retrieveSelectedFaceData noCanvasPickedPanel.previewTarget).truthy = true ∧
    (sampleCollab.retrieveSelectedFaceData noCanvasPickedPanel.previewSource).truthy = true ∧
    (processFaceSwap sampleCollab idleResponse noCanvasPickedPanel).trace =
      [Effect.retrieveMediaDetails Slot.target
         (sampleCollab.retrieveMediaDetails noCanvasPickedPanel.previewTarget),
       Effect.retrieveMediaDetails Slot.source
         (sampleCollab.retrieveMediaDetails noCanvasPickedPanel.previewSource)] ∧
    (processFaceSwap sampleCollab idleResponse noCanvasPickedPanel).thrown =
      some "TypeError" ∧
    ¬ (processFaceSwap sampleCollab idleResponse noCanvasPickedPanel).posted ∧
    ¬ (processFaceSwap sampleCollab idleResponse noCanvasPickedPanel).closed :=
  have hn := not_submitted_of_trace
    (processFaceSwap sampleCollab idleResponse noCanvasPickedPanel) (by decide)
  ⟨by decide, by decide, by decide, by decide, by decide, by decide, by decide, hn.1, hn.2.2⟩

/-- C7 amended: with an idle backend, both media names present, the click step completed
(multiface unchecked, or the target preview holds its `.canvasMedia` element) and both face
data read after it truthy, `processFaceSwap` makes exactly one `fetch` call, a POST to
`/synthesize_face_swap/`, and then calls `closeTutorial`, without error and leaving both
status elements empty and hidden; the body holds the 13 fields: the face data and media
names of the two slots, the target `mediaStart` and `mediaEnd`, the source
`mediaCurrentTime` and `mediaEnd`, the media types, the states of the two check boxes and
the string value of the coefficient input unchanged.  With the check boxes set by user
clicks from the initial panel, similarface checked and the coefficient `1.2`, the body has
`similarface` true, `multiface` false and `similar_coeff` `1.2`. -/
theorem submission_sends_snapshot (c : Collab) (data : StatusResponse) (p : Panel)
    (q : Preview) (es : List Effect) (body : FaceSwapParameters)
    (h : data.status_code = JSVal.num 200)
    (ht : (c.retrieveMediaDetails p.previewTarget).mediaName.truthy = true)
    (hsrc : (c.retrieveMediaDetails p.previewSource).mediaName.truthy = true)
    (hr : resolveMultiface c p.multiface p.previewTarget = some (q, es))
    (htf : (c.retrieveSelectedFaceData q).truthy = true)
    (hsf : (c.retrieveSelectedFaceData p.previewSource).truthy = true)
    (hb : body =
      { face_target_fields := c.retrieveSelectedFaceData q
        target_content := (c.retrieveMediaDetails p.previewTarget).mediaName
        video_start_target := (c.retrieveMediaDetails p.previewTarget).mediaStart
        video_end_target := (c.retrieveMediaDetails p.previewTarget).mediaEnd
        type_file_target := (c.retrieveMediaDetails p.previewTarget).mediaType
        face_source_fields := c.retrieveSelectedFaceData p.previewSource
        source_content := (c.retrieveMediaDetails p.previewSource).mediaName
        video_current_time_source := (c.retrieveMediaDetails p.previewSource).mediaCurrentTime
        video_end_source := (c.retrieveMediaDetails p.previewSource).mediaEnd
        type_file_source := (c.retrieveMediaDetails p.previewSource).mediaType
        multiface := p.multiface
        similarface := p.similarface
        similar_coeff := p.similarCoeff }) :
    (processFaceSwap c data p).trace =
      [Effect.retrieveMediaDetails Slot.target (c.retrieveMediaDetails p.previewTarget),
       Effect.retrieveMediaDetails Slot.source (c.retrieveMediaDetails p.previewSource)] ++
      es ++
      [Effect.retrieveSelectedFaceData Slot.target (c.retrieveSelectedFaceData q),
       Effect.retrieveSelectedFaceData Slot.source (c.retrieveSelectedFaceData p.previewSource),
       Effect.fetch "/synthesize_face_swap/" "POST" "application/json" body,
       Effect.closeTutorial] ∧
    (processFaceSwap c data p).trace.filter Effect.isSubmission =
      [Effect.fetch "/synthesize_face_swap/" "POST" "application/json" body,
       Effect.closeTutorial] ∧
    (processFaceSwap c data p).thrown = none ∧
    (∀ lastFirst,
      (settle c lastFirst (processFaceSwap c data p)).panel.messageTarget.cleared ∧
      (settle c lastFirst (processFaceSwap c data p)).panel.messageSource.cleared) ∧
    (∀ clicks : List Box,
      p.multiface = (runClicks clicks initialPanel).multiface →
      p.similarface = (runClicks clicks initialPanel).similarface →
      p.similarface = true → p.similarCoeff = "1.2" →
      body.similarface = true ∧ body.multiface = false ∧ body.similar_coeff = "1.2") := by
  have htrace := processFaceSwap_submitted_trace c data p q es h ht hsrc hr htf hsf
  have hbody : faceSwapParameters (c.retrieveMediaDetails p.previewTarget)
      (c.retrieveMediaDetails p.previewSource) (c.retrieveSelectedFaceData q)
      (c.retrieveSelectedFaceData p.previewSource) p.multiface p = body := by
    rw [hb]; rfl
  rw [hbody] at htrace
  have hes : es.filter Effect.isSubmission = [] := by
    rw [List.filter_eq_nil_iff]
    intro e he
    simp [resolveMultiface_no_submission c _ _ q es hr e he]
  refine ⟨htrace, ?_, ?_, ?_, ?_⟩
  · rw [htrace]
    simp [List.filter_append, hes, Effect.isSubmission]
  · rw [processFaceSwap_submitted c data p q es h ht hsrc hr htf hsf]; rfl
  · intro lastFirst
    exact settle_submitted c data p q es lastFirst h ht hsrc hr htf hsf
  · intro clicks hmulti hsimilar h1 h3
    subst hb
    have hex := runClicks_exclusive clicks initialPanel (by simp [initialPanel])
    rw [← hmulti, ← hsimilar] at hex
    refine ⟨h1, ?_, h3⟩
    cases hmf : p.multiface
    · rfl
    · exact absurd ⟨hmf, h1⟩ hex

/-- The scenario of C7: both slots populated and selected, the similarface box clicked once,
coefficient `1.2`, idle backend. -/
theorem submission_sends_snapshot_witness :
    (processFaceSwap sampleCollab idleResponse readyPanel).trace.filter Effect.isSubmission =
      [Effect.fetch "/synthesize_face_swap/" "POST" "application/json" readyParameters,
       Effect.closeTutorial] ∧
    readyParameters.similarface = true ∧ readyParameters.multiface = false ∧
    readyParameters.similar_coeff = "1.2" :=
  have hw := submission_sends_snapshot sampleCollab idleResponse readyPanel
    readyPanel.previewTarget [] readyParameters (by decide) (by decide) (by decide) (by decide)
    (by decide) (by decide) (by decide)
  ⟨hw.2.1, hw.2.2.2.2 [Box.similarface] (by decide) (by decide) (by decide) (by decide)⟩

/-! ## The claims about `handleFaceSwap` -/

/-- C8: for every call of `handleFaceSwap` whose file input holds a file, the preview
container is emptied before a loader runs: the outcome does not depend on what the preview
held before, and the preview afterwards is what the loader builds in an empty container
(empty when no loader runs).  When the file input holds no file the preview, the drop box
and the status message are unchanged and nothing is called. -/
theorem load_clears_preview (c : Collab) (file : File) (s : SlotDom) (k : Nat) :
    (∀ old : Preview,
      handleFaceSwap c (some file) { s with preview := old } k =
        handleFaceSwap c (some file) { s with preview := [] } k) ∧
    (handleFaceSwap c (some file) s k).dom.preview =
      (if majorType file.type = "image" then
        (c.setupImageCanvas [] (c.createObjectURL file) "40vh" "35vw").1
      else if majorType file.type = "video" then
        (c.setupVideoTimeline [] (c.createObjectURL file) "40vh" "35vw").1
      else []) ∧
    (∀ old : Preview,
      c.retrieveSelectedFaceData
          (handleFaceSwap c (some file) { s with preview := old } k).dom.preview =
        c.retrieveSelectedFaceData
          (handleFaceSwap c (some file) { s with preview := [] } k).dom.preview) ∧
    handleFaceSwap c none s k = { dom := s, trace := [], colorCalls := k, thrown := none } := by
  have hind : ∀ old : Preview,
      handleFaceSwap c (some file) { s with preview := old } k =
        handleFaceSwap c (some file) { s with preview := [] } k := by
    intro old
    simp only [handleFaceSwap]
  refine ⟨hind, ?_, ?_, rfl⟩
  · simp only [handleFaceSwap]
    split_ifs <;> rfl
  · intro old
    rw [hind old]

/-- A run of C8: a PNG file loaded into a slot that held an earlier image with a face
picked; afterwards the preview holds the new image and its canvas only, and no face data. -/
theorem load_clears_preview_witness :
    (handleFaceSwap sampleCollab (some pngFile) usedSlot 0).dom.preview =
      [imageNode "face.png", canvasNode] ∧
    sampleCollab.retrieveSelectedFaceData usedSlot.preview = JSVal.object 1 ∧
    sampleCollab.retrieveSelectedFaceData
      (handleFaceSwap sampleCollab (some pngFile) usedSlot 0).dom.preview = JSVal.null ∧
    handleFaceSwap sampleCollab none usedSlot 0 =
      { dom := usedSlot, trace := [], colorCalls := 0, thrown := none } :=
  ⟨((load_clears_preview sampleCollab pngFile usedSlot 0).2.1).trans (by decide),
   by decide, by decide, (load_clears_preview sampleCollab pngFile usedSlot 0).2.2.2⟩

/-- Any file whose type is neither an image nor a video type makes `handleFaceSwap` throw:
the drop box is shrunk and the preview emptied, no listener is attached, the status message
is left as it was. -/
theorem handleFaceSwap_other_type (c : Collab) (file : File) (s : SlotDom) (k : Nat)
    (hi : majorType file.type ≠ "image") (hv : majorType file.type ≠ "video") :
    handleFaceSwap c (some file) s k =
      { dom := { dragBoxHeight := "30px", message := s.message, preview := [] }
        trace := []
        colorCalls := k
        thrown := some "TypeError" } := by
  simp [handleFaceSwap, hi, hv]

/-- An image file makes `handleFaceSwap` attach `setPointOnCanvas` as click listener to the
canvas the loader returns, without error. -/
theorem handleFaceSwap_image (c : Collab) (file : File) (s : SlotDom) (k : Nat)
    (hi : majorType file.type = "image") :
    (handleFaceSwap c (some file) s k).trace =
      [Effect.addEventListener
        (c.setupImageCanvas [] (c.createObjectURL file) "40vh" "35vw").2
        "click" "setPointOnCanvas"] ∧
    (handleFaceSwap c (some file) s k).thrown = none := by
  simp [handleFaceSwap, hi]

/-- A video file makes `handleFaceSwap` attach `setPointOnCanvas` as click listener to the
canvas the loader returns, without error. -/
theorem handleFaceSwap_video (c : Collab) (file : File) (s : SlotDom) (k : Nat)
    (hv : majorType file.type = "video") :
    (handleFaceSwap c (some file) s k).trace =
      [Effect.addEventListener
        (c.setupVideoTimeline [] (c.createObjectURL file) "40vh" "35vw").2
        "click" "setPointOnCanvas"] ∧
    (handleFaceSwap c (some file) s k).thrown = none := by
  have hi : majorType file.type ≠ "image" := by rw [hv]; decide
  simp [handleFaceSwap, hi, hv]

/-- C9 fails for a file of type `application/pdf`: `handleFaceSwap` shrinks the drop box,
empties the preview, attaches no listener and throws a `TypeError`. -/
theorem handleFaceSwap_pdf_throws :
    handleFaceSwap sampleCollab (some pdfFile) usedSlot 0 =
      { dom := { dragBoxHeight := "30px", message := usedSlot.message, preview := [] }
        trace := []
        colorCalls := 0
        thrown := some "TypeError" } := by
  decide

/-! ## The coefficient -/

/-- C10 as stated fails: with `5` typed into the coefficient input the ready panel is
submitted with `similar_coeff` equal to `5`, outside the range. -/
theorem similar_coeff_range_counterexample :
    ¬ ∀ (c : Collab) (data : StatusResponse) (p : Panel) (url method ct : String)
        (body : FaceSwapParameters),
        Effect.fetch url method ct body ∈ (processFaceSwap c data p).trace →
        coeffInRange body.similar_coeff = true := by
  intro hall
  have h5 := hall sampleCollab idleResponse outOfRangePanel "/synthesize_face_swap/" "POST"
    "application/json" { readyParameters with similar_coeff := "5" } (by decide)
  revert h5
  decide

/-- C10 amended: the `similar_coeff` of every request body `processFaceSwap` sends is the
string value of the coefficient input, unchanged, so it lies in the range exactly when the
value of the input does. -/
theorem similar_coeff_is_raw_value (c : Collab) (data : StatusResponse) (p : Panel)
    (url method ct : String) (body : FaceSwapParameters)
    (hmem : Effect.fetch url method ct body ∈ (processFaceSwap c data p).trace) :
    body.similar_coeff = p.similarCoeff ∧
    (coeffInRange body.similar_coeff = true ↔ coeffInRange p.similarCoeff = true) := by
  obtain ⟨q, es, _, _, _, _, hbody⟩ := fetch_mem c data p url method ct body hmem
  have hc : body.similar_coeff = p.similarCoeff := by rw [hbody]; rfl
  exact ⟨hc, by rw [hc]⟩

/-- A run of C10 amended: the ready panel, whose coefficient is the initial `1.2`. -/
theorem similar_coeff_is_raw_value_witness :
    Effect.fetch "/synthesize_face_swap/" "POST" "application/json" readyParameters ∈
      (processFaceSwap sampleCollab idleResponse readyPanel).trace ∧
    readyParameters.similar_coeff = readyPanel.similarCoeff ∧
    coeffInRange readyPanel.similarCoeff = true :=
  ⟨by decide,
   (similar_coeff_is_raw_value sampleCollab idleResponse readyPanel "/synthesize_face_swap/"
      "POST" "application/json" readyParameters (by decide)).1,
   by decide⟩

end FaceSwap
